import Mathlib

/-!
Verification of the address-validation resilience layer of the
`shawnee-bowl-marketing` repository: provider adapters (Smarty, Google,
USPS), the per-provider circuit breaker, the validation cache with
canonical keys and in-flight deduplication, and the orchestrator's
waterfall and hedged dispatch policies.

The TypeScript sources are shallowly embedded: pure response-mapping
code becomes Lean functions, stateful code (circuit breaker, cache)
becomes explicit state passing, asynchronous settlement is modelled by
explicit outcome data (a promise that never settles is `Option.none`),
and `Date.now()` becomes an explicit `now : Nat` parameter.
-/

namespace AddressValidation

/-- The closed provider enumeration from `shared/schema.ts`
(`AddressProvider`: SMARTY = 'smarty', GOOGLE = 'google', USPS = 'usps'). -/
inductive AddressProvider
  | smarty
  | google
  | usps
deriving DecidableEq, Repr

/-- String value of each provider (the TS enum value), used when the
orchestrator interpolates `${providerType}` into error messages. -/
def AddressProvider.toName : AddressProvider → String
  | .smarty => "smarty"
  | .google => "google"
  | .usps => "usps"

/-- The embedded `StandardizedAddress` from `shared/schema.ts`; optional TS fields are
`Option`. -/
structure StandardizedAddress where
  streetAddress : String
  city : String
  state : String
  ZIPCode : String
  ZIPPlus4 : Option String
  secondaryAddress : Option String
deriving DecidableEq, Repr

/-- The embedded `NormalizedResult` from `shared/schema.ts`.  Optional TS fields are
`Option`; in particular `serviceUnavailable? : boolean` is
`Option Bool`, so that "unset" (`none`) is distinct from
"explicitly false" (`some false`), exactly as in a TS object. -/
structure NormalizedResult where
  isValid : Bool
  standardizedAddress : Option StandardizedAddress
  suggestions : Option (List String)
  errors : Option (List String)
  serviceUnavailable : Option Bool
  provider : AddressProvider
  latencyMs : Nat
  didFallback : Option Bool
  confidence : Option Nat
deriving DecidableEq, Repr

/-- Truthiness of `result.serviceUnavailable` as tested by
`if (result.serviceUnavailable)`: `undefined` and `false` are falsy. -/
def NormalizedResult.unavailable (r : NormalizedResult) : Bool :=
  r.serviceUnavailable.getD false

/-- JavaScript `String.prototype.includes`, modelled as list-infix search
on the character sequences. -/
def strIncludes (s pat : String) : Bool :=
  decide (List.IsInfix pat.toList s.toList)

/-! ## Circuit breaker (`addressOrchestrator.ts`, class `CircuitBreaker`)

Private mutable fields `failures`, `lastFailureTime`, `state` become an
explicit state record; `execute` becomes a state-transition function
taking the current clock value and the outcome the wrapped operation
would have if invoked. -/

/-- The `'closed' | 'open' | 'half-open'` state union. -/
inductive CBState
  | closed
  | opened
  | halfOpen
deriving DecidableEq, Repr

/-- The circuit breaker's mutable fields. A fresh breaker is
`⟨0, 0, .closed⟩` (field initializers in the TS class). -/
structure CircuitBreaker where
  failures : Nat
  lastFailureTime : Nat
  state : CBState
deriving DecidableEq, Repr

/-- Outcome of a guarded call as seen by the breaker: the wrapped
operation either resolves a result or rejects (a thrown adapter error or
a fired per-provider timeout, both of which reject the promise returned
by `executeWithTimeout`). -/
inductive CallOutcome
  | resolves (r : NormalizedResult)
  | fails (msg : String)
deriving DecidableEq, Repr

/-- The embedded `CircuitBreaker.execute`, as a function of the breaker state, the
current time `now` (`Date.now()`), and the operation's outcome `op`.
Returns `(res, cb', invoked)`:
* `res = none` models the `throw new Error('Circuit breaker is open')`
  path (the wrapped operation is never invoked);
* `res = some op` models the operation being invoked, with `onSuccess`
  applied if it resolves and `onFailure` if it rejects;
* `invoked` records whether the wrapped operation ran.
`Date.now() - lastFailureTime` is truncated `Nat` subtraction; the clock
never runs backwards in the source, so this is faithful. -/
def cbExecute (failureThreshold resetTimeoutMs : Nat) (cb : CircuitBreaker)
    (now : Nat) (op : CallOutcome) :
    Option CallOutcome × CircuitBreaker × Bool :=
  if cb.state = CBState.opened ∧ now - cb.lastFailureTime < resetTimeoutMs then
    (none, cb, false)
  else
    -- while open and the reset timeout has elapsed: state = 'half-open'
    let cb1 := if cb.state = CBState.opened
      then { cb with state := CBState.halfOpen } else cb
    match op with
    | .resolves r =>
        -- onSuccess(): failures = 0; state = 'closed'
        (some (.resolves r),
         { cb1 with failures := 0, state := CBState.closed }, true)
    | .fails msg =>
        -- onFailure(): failures++; lastFailureTime = now;
        -- if failures >= threshold then state = 'open'
        let f := cb1.failures + 1
        let st := if failureThreshold ≤ f then CBState.opened else cb1.state
        (some (.fails msg),
         { cb1 with failures := f, lastFailureTime := now, state := st },
         true)

/-- The breaker state after `cbExecute` (the post-state projection). -/
def cbAfter (failureThreshold resetTimeoutMs : Nat) (cb : CircuitBreaker)
    (now : Nat) (op : CallOutcome) : CircuitBreaker :=
  (cbExecute failureThreshold resetTimeoutMs cb now op).2.1

/-- Run a sequence of guarded calls `(now, outcome)` through one breaker,
threading the state. -/
def cbRunSeq (failureThreshold resetTimeoutMs : Nat) :
    List (Nat × CallOutcome) → CircuitBreaker → CircuitBreaker
  | [], cb => cb
  | (now, op) :: rest, cb =>
      cbRunSeq failureThreshold resetTimeoutMs rest
        (cbAfter failureThreshold resetTimeoutMs cb now op)

/-! ## Smarty adapter (`providers/smartyService.ts`)

`SmartyService.validate` is embedded as a function of an abstract API
outcome: the network call either throws (`callSmartyAPI` rejections and
other exceptions), returns an empty candidate list, returns a candidate
whose `components`/`analysis` are missing (the defensive branch of
`mapResponse`), or returns a well-formed candidate. -/

/-- The `components` fields of a Smarty candidate used by `mapResponse`. -/
structure SmartyComponents where
  city_name : String
  state_abbreviation : String
  zipcode : String
  plus4_code : String
deriving DecidableEq, Repr

/-- The `analysis` fields of a Smarty candidate used by `mapResponse`. -/
structure SmartyAnalysis where
  dpv_match_y : Option Bool
  dpv_match_code : Option String
  dpv_vacancy : Option String
  dpv_footnotes : Option String
  footnotes : Option String
  suitelink_match : Option Bool
  ews_match : Option Bool
deriving DecidableEq, Repr

/-- A Smarty street-address candidate (the fields `mapResponse` reads). -/
structure SmartyCandidate where
  delivery_line_1 : String
  delivery_line_2 : Option String
  components : SmartyComponents
  analysis : SmartyAnalysis
deriving DecidableEq, Repr

/-- JS truthiness of an optional string (`undefined` and `''` are falsy),
used for checks like `footnotes?.includes(..)` guards and
`components.plus4_code ? _ : _`. -/
def optStrIncludes (s : Option String) (pat : String) : Bool :=
  match s with
  | some str => strIncludes str pat
  | none => false

/-- The embedded `SmartyService.mapResponse`. -/
def smartyMapResponse (c : SmartyCandidate) (latencyMs : Nat) : NormalizedResult :=
  let isValid : Bool :=
    decide (c.analysis.dpv_match_y = some true ∨ c.analysis.dpv_match_code = some "Y")
  let isVacant : Bool := decide (c.analysis.dpv_vacancy = some "Y")
  let standardizedAddress : StandardizedAddress :=
    { streetAddress := c.delivery_line_1
      city := c.components.city_name
      state := c.components.state_abbreviation
      ZIPCode := c.components.zipcode
      ZIPPlus4 := some (if c.components.plus4_code ≠ "" then
          c.components.zipcode ++ "-" ++ c.components.plus4_code
        else c.components.zipcode)
      secondaryAddress := c.delivery_line_2 }
  let suggestions : List String :=
    (if optStrIncludes c.analysis.footnotes "A" then
      ["Address matched at the ZIP+4 level"] else []) ++
    (if optStrIncludes c.analysis.footnotes "B" then
      ["Address validated to building/unit level"] else []) ++
    (if c.analysis.suitelink_match = some true then
      ["Suite/apartment number verified"] else []) ++
    (if c.analysis.ews_match = some true then
      ["Address found in Early Warning System"] else [])
  let errors : List String :=
    (if isVacant then ["This address appears to be vacant."] else []) ++
    (if optStrIncludes c.analysis.dpv_footnotes "CC" then
      ["Invalid city/state/ZIP combination."] else []) ++
    (if optStrIncludes c.analysis.dpv_footnotes "N1" then
      ["Primary number is invalid."] else [])
  let confidence : Nat :=
    (if c.analysis.dpv_match_y = some true ∨ c.analysis.dpv_match_code = some "Y"
      then 60 else 0) +
    (if c.analysis.suitelink_match = some true then 20 else 0) +
    (if c.components.plus4_code ≠ "" then 10 else 0) +
    (if optStrIncludes c.analysis.footnotes "A" then 10 else 0)
  { isValid := isValid && !isVacant
    standardizedAddress := if isValid then some standardizedAddress else none
    suggestions := if suggestions.length > 0 then some suggestions else none
    errors := if errors.length > 0 then some errors else none
    serviceUnavailable := none
    provider := AddressProvider.smarty
    latencyMs := latencyMs
    didFallback := none
    confidence := some confidence }

/-- Abstract outcome of the Smarty API round-trip inside `validate`. -/
inductive SmartyOutcome
  | throws (msg : String)
  | emptyResult
  | malformedCandidate
  | candidate (c : SmartyCandidate)
deriving DecidableEq, Repr

/-- The embedded `SmartyService.validate`: the configuration check, the catch-branch
error classification (429 / quota / rate limit / 401 / 403 substrings of
the thrown message), the empty-result branch, the defensive
missing-components branch, and the `mapResponse` call. -/
def smartyValidate (configured : Bool) (o : SmartyOutcome) (latencyMs : Nat) :
    NormalizedResult :=
  if ¬configured then
    { isValid := false, standardizedAddress := none, suggestions := none
      errors := some ["Smarty address validation is not configured."]
      serviceUnavailable := some true, provider := AddressProvider.smarty
      latencyMs := latencyMs, didFallback := none, confidence := none }
  else
    match o with
    | .throws msg =>
        if strIncludes msg "429" ∨ strIncludes msg "quota" ∨
            strIncludes msg "rate limit" then
          { isValid := false, standardizedAddress := none, suggestions := none
            errors := some ["Smarty service rate limit reached. Please try again later."]
            serviceUnavailable := some true, provider := AddressProvider.smarty
            latencyMs := latencyMs, didFallback := none, confidence := none }
        else if strIncludes msg "401" ∨ strIncludes msg "403" then
          { isValid := false, standardizedAddress := none, suggestions := none
            errors := some ["Smarty authentication failed. Please check API credentials."]
            serviceUnavailable := some true, provider := AddressProvider.smarty
            latencyMs := latencyMs, didFallback := none, confidence := none }
        else
          { isValid := false, standardizedAddress := none, suggestions := none
            errors := some ["Address validation failed. Please try again."]
            serviceUnavailable := none, provider := AddressProvider.smarty
            latencyMs := latencyMs, didFallback := none, confidence := none }
    | .emptyResult =>
        { isValid := false, standardizedAddress := none
          suggestions := some ["Please check the address and try again."]
          errors := some ["Address not found or invalid."]
          serviceUnavailable := none, provider := AddressProvider.smarty
          latencyMs := latencyMs, didFallback := none, confidence := none }
    | .malformedCandidate =>
        { isValid := false, standardizedAddress := none, suggestions := none
          errors := some ["Invalid response from address validation service"]
          serviceUnavailable := none, provider := AddressProvider.smarty
          latencyMs := latencyMs, didFallback := none, confidence := none }
    | .candidate c => smartyMapResponse c latencyMs

/-! ## Google adapter (`providers/googleService.ts`) -/

/-- The `verdict` fields used by `GoogleService.mapResponse`. -/
structure GoogleVerdict where
  addressComplete : Bool
  hasUnconfirmedComponents : Bool
  hasInferredComponents : Bool
  hasReplacedComponents : Bool
deriving DecidableEq, Repr

/-- One entry of `address.addressComponents` (the fields used). -/
structure GoogleAddressComponent where
  componentType : String
  confirmationLevel : String
deriving DecidableEq, Repr

/-- The embedded `address.postalAddress` (the fields used). -/
structure GooglePostalAddress where
  addressLines : List String
  administrativeArea : String
  locality : String
  postalCode : String
deriving DecidableEq, Repr

/-- The embedded `uspsData.standardizedAddress` in the Google response. -/
structure GoogleUspsStandardized where
  firstAddressLine : String
  secondAddressLine : Option String
  cityName : String
  stateAbbreviation : String
  zipCode : String
  zipCodeExtension : Option String
deriving DecidableEq, Repr

/-- The embedded `uspsData` in the Google response (the fields used). -/
structure GoogleUspsData where
  standardizedAddress : GoogleUspsStandardized
  dpvConfirmation : String
  vacant : String
deriving DecidableEq, Repr

/-- A Google Address Validation `result` (the fields `mapResponse` reads). -/
structure GoogleResponse where
  verdict : GoogleVerdict
  postalAddress : GooglePostalAddress
  addressComponents : List GoogleAddressComponent
  uspsData : Option GoogleUspsData
deriving DecidableEq, Repr

/-- JS truthiness of `uspsData?.standardizedAddress.zipCodeExtension`
(`undefined` and `''` falsy). -/
def optStrTruthy (s : Option String) : Bool :=
  match s with
  | some str => str ≠ ""
  | none => false

/-- The embedded `GoogleService.mapResponse`. -/
def googleMapResponse (resp : GoogleResponse) (latencyMs : Nat) :
    NormalizedResult :=
  let isAddressComplete := resp.verdict.addressComplete
  let hasUnconfirmedComponents := resp.verdict.hasUnconfirmedComponents
  let uspsValid : Bool := decide ((resp.uspsData.map GoogleUspsData.dpvConfirmation) = some "Y")
  let isVacant : Bool := decide ((resp.uspsData.map GoogleUspsData.vacant) = some "Y")
  let isValid := isAddressComplete && (uspsValid || !hasUnconfirmedComponents) && !isVacant
  let standardizedAddress : StandardizedAddress :=
    match resp.uspsData with
    | some u =>
        { streetAddress := u.standardizedAddress.firstAddressLine
          secondaryAddress := u.standardizedAddress.secondAddressLine
          city := u.standardizedAddress.cityName
          state := u.standardizedAddress.stateAbbreviation
          ZIPCode := u.standardizedAddress.zipCode
          ZIPPlus4 := some (if optStrTruthy u.standardizedAddress.zipCodeExtension then
              u.standardizedAddress.zipCode ++ "-" ++
                (u.standardizedAddress.zipCodeExtension.getD "")
            else u.standardizedAddress.zipCode) }
    | none =>
        { streetAddress := (resp.postalAddress.addressLines.get? 0).getD ""
          secondaryAddress := resp.postalAddress.addressLines.get? 1
          city := resp.postalAddress.locality
          state := resp.postalAddress.administrativeArea
          ZIPCode := resp.postalAddress.postalCode
          ZIPPlus4 := none }
  let suggestions : List String :=
    (if resp.verdict.hasReplacedComponents then
      ["Some address components were corrected"] else []) ++
    (if resp.verdict.hasInferredComponents then
      ["Some address components were inferred"] else []) ++
    (if (resp.uspsData.map GoogleUspsData.dpvConfirmation) = some "Y" then
      ["Address validated by USPS"] else []) ++
    (if optStrTruthy (resp.uspsData.bind
        (fun u => u.standardizedAddress.zipCodeExtension)) then
      ["ZIP+4 code available for better delivery"] else [])
  let unconfirmedComponents : List String :=
    (resp.addressComponents.filter
      (fun comp => comp.confirmationLevel = "UNCONFIRMED_BUT_PLAUSIBLE")).map
      GoogleAddressComponent.componentType
  let errors : List String :=
    (if isVacant then ["This address appears to be vacant."] else []) ++
    (if hasUnconfirmedComponents ∧ unconfirmedComponents.length > 0 then
      ["Unconfirmed address components: " ++
        String.intercalate ", " unconfirmedComponents] else []) ++
    (if (resp.uspsData.map GoogleUspsData.dpvConfirmation) = some "N" then
      ["Address not deliverable according to USPS"] else [])
  let confidence : Nat :=
    (if isAddressComplete then 40 else 0) +
    (if uspsValid then 30 else 0) +
    (if !hasUnconfirmedComponents then 20 else 0) +
    (if optStrTruthy (resp.uspsData.bind
        (fun u => u.standardizedAddress.zipCodeExtension)) then 10 else 0)
  { isValid := isValid
    standardizedAddress := if isValid then some standardizedAddress else none
    suggestions := if suggestions.length > 0 then some suggestions else none
    errors := if errors.length > 0 then some errors else none
    serviceUnavailable := none
    provider := AddressProvider.google
    latencyMs := latencyMs
    didFallback := none
    confidence := some confidence }

/-- Abstract outcome of the Google API round-trip inside `validate`:
either an exception (thrown HTTP/quota/auth errors, or a crash while
mapping a malformed response) or a well-formed response. -/
inductive GoogleOutcome
  | throws (msg : String)
  | ok (resp : GoogleResponse)
deriving DecidableEq, Repr

/-- The embedded `GoogleService.validate`: configuration check, the catch-branch
classification (QUOTA_EXCEEDED / RATE_LIMIT_EXCEEDED / UNAUTHENTICATED /
401 substrings), and `mapResponse`. -/
def googleValidate (configured : Bool) (o : GoogleOutcome) (latencyMs : Nat) :
    NormalizedResult :=
  if ¬configured then
    { isValid := false, standardizedAddress := none, suggestions := none
      errors := some ["Google address validation is not configured."]
      serviceUnavailable := some true, provider := AddressProvider.google
      latencyMs := latencyMs, didFallback := none, confidence := none }
  else
    match o with
    | .throws msg =>
        if strIncludes msg "QUOTA_EXCEEDED" ∨ strIncludes msg "RATE_LIMIT_EXCEEDED" then
          { isValid := false, standardizedAddress := none, suggestions := none
            errors := some ["Google service quota exceeded. Please try again later."]
            serviceUnavailable := some true, provider := AddressProvider.google
            latencyMs := latencyMs, didFallback := none, confidence := none }
        else if strIncludes msg "UNAUTHENTICATED" ∨ strIncludes msg "401" then
          { isValid := false, standardizedAddress := none, suggestions := none
            errors := some ["Google authentication failed. Please check API key."]
            serviceUnavailable := some true, provider := AddressProvider.google
            latencyMs := latencyMs, didFallback := none, confidence := none }
        else
          { isValid := false, standardizedAddress := none, suggestions := none
            errors := some ["Address validation failed. Please try again."]
            serviceUnavailable := none, provider := AddressProvider.google
            latencyMs := latencyMs, didFallback := none, confidence := none }
    | .ok resp => googleMapResponse resp latencyMs

/-! ## USPS adapter (`uspsService.ts`) -/

/-- The `address` object in a USPS response (the fields used). -/
structure USPSAddress where
  streetAddress : String
  secondaryAddress : Option String
  city : String
  state : String
  ZIPCode : String
  ZIPPlus4 : Option String
deriving DecidableEq, Repr

/-- One entry of `corrections` / `matches`. -/
structure USPSCodeText where
  code : String
  text : String
deriving DecidableEq, Repr

/-- The embedded `additionalInfo` (the fields used). -/
structure USPSAdditionalInfo where
  DPVConfirmation : Option String
  vacant : Option String
deriving DecidableEq, Repr

/-- A successful USPS address-lookup response (the fields used). -/
structure USPSOkResponse where
  address : USPSAddress
  additionalInfo : Option USPSAdditionalInfo
  corrections : Option (List USPSCodeText)
  «matches» : Option (List USPSCodeText)
  warnings : Option (List String)
deriving DecidableEq, Repr

/-- Abstract outcome of the USPS round-trip inside `validateAddress`:
an HTTP error status from the address endpoint, a parsed OK response, or
a thrown exception (OAuth/token failures throw messages containing
"Failed to obtain USPS access token" / "USPS OAuth failed"; network or
parse errors throw other messages). -/
inductive USPSOutcome
  | httpError (status : Nat)
  | ok (resp : USPSOkResponse)
  | thrown (msg : String)
deriving DecidableEq, Repr

/-- The embedded `USPSService.validateAddress` (reached from `validate`): the
enabled-check, the 404 and generic non-OK branches, the DPV-based
mapping of an OK response, and the catch branch whose
`serviceUnavailable` is the boolean `isServiceUnavailable` (so it is
explicitly `false`, not unset, for non-auth exceptions). -/
def uspsValidateAddress (serviceEnabled : Bool) (o : USPSOutcome)
    (latencyMs : Nat) : NormalizedResult :=
  if ¬serviceEnabled then
    { isValid := false, standardizedAddress := none, suggestions := none
      errors := some ["USPS address validation is not configured. You may save the customer with a warning."]
      serviceUnavailable := some true, provider := AddressProvider.usps
      latencyMs := latencyMs, didFallback := none, confidence := none }
  else
    match o with
    | .httpError status =>
        if status = 404 then
          { isValid := false, standardizedAddress := none, suggestions := none
            errors := some ["Address not found. Please check the address and try again."]
            serviceUnavailable := none, provider := AddressProvider.usps
            latencyMs := latencyMs, didFallback := none, confidence := none }
        else
          { isValid := false, standardizedAddress := none, suggestions := none
            errors := some ["Address validation failed. Please check the address and try again."]
            serviceUnavailable := none, provider := AddressProvider.usps
            latencyMs := latencyMs, didFallback := none, confidence := none }
    | .ok resp =>
        let dpvConfirmation := resp.additionalInfo.bind USPSAdditionalInfo.DPVConfirmation
        let isVacant : Bool :=
          decide ((resp.additionalInfo.bind USPSAdditionalInfo.vacant) = some "Y")
        let isValid : Bool := decide (dpvConfirmation = some "Y") && !isVacant
        let suggestions : List String :=
          ((resp.corrections.getD []).map (fun c => "Correction: " ++ c.text)) ++
          ((resp.«matches».getD []).map (fun m => "Match: " ++ m.text)) ++
          resp.warnings.getD []
        { isValid := isValid
          standardizedAddress := some
            { streetAddress := resp.address.streetAddress
              city := resp.address.city
              state := resp.address.state
              ZIPCode := resp.address.ZIPCode
              ZIPPlus4 := resp.address.ZIPPlus4
              secondaryAddress := resp.address.secondaryAddress }
          suggestions := if suggestions.length > 0 then some suggestions else none
          errors := if isVacant then some ["This address appears to be vacant."] else none
          serviceUnavailable := none
          provider := AddressProvider.usps
          latencyMs := latencyMs
          didFallback := none
          confidence := some (if isVacant then 60 else 80) }
    | .thrown msg =>
        let isServiceUnavailable :=
          strIncludes msg "Failed to obtain USPS access token" ||
          strIncludes msg "USPS OAuth failed"
        { isValid := false, standardizedAddress := none, suggestions := none
          errors := some [if isServiceUnavailable then
              "USPS address validation service is temporarily unavailable. You may save the customer with a warning."
            else "Address validation failed. Please check the address and try again."]
          serviceUnavailable := some isServiceUnavailable
          provider := AddressProvider.usps
          latencyMs := latencyMs, didFallback := none, confidence := none }

/-! ## Orchestrator (`addressOrchestrator.ts`, class `AddressOrchestrator`)

An adapter call for the input under consideration is modelled by its
behavior: it settles after `durationMs`, either resolving a
`NormalizedResult` or rejecting with a thrown message.  The adapters
themselves never reject, but `executeWithTimeout` turns a fired timer
into a rejection, so the guarded call seen by the circuit breaker is a
`CallOutcome`. -/

/-- Behavior of one provider's `validate(input)` call. -/
inductive AdapterBehavior
  | answers (r : NormalizedResult) (durationMs : Nat)
  | throws (msg : String) (durationMs : Nat)
deriving DecidableEq, Repr

/-- When the adapter call settles on its own. -/
def AdapterBehavior.duration : AdapterBehavior → Nat
  | .answers _ d => d
  | .throws _ d => d

/-- The embedded `AddressOrchestrator.executeWithTimeout`: race the adapter call
against a `perProviderTimeoutMs` timer.  If the adapter settles strictly
before the timer fires it wins; otherwise the timer rejects with
`Provider <name> timed out` (a tie is modelled as the timer firing). -/
def executeWithTimeout (providerName : String) (perProviderTimeoutMs : Nat)
    (b : AdapterBehavior) : CallOutcome :=
  if b.duration < perProviderTimeoutMs then
    match b with
    | .answers r _ => .resolves r
    | .throws msg _ => .fails msg
  else
    .fails ("Provider " ++ providerName ++ " timed out")

/-- When the guarded call (adapter vs. timer) settles. -/
def guardedDuration (perProviderTimeoutMs : Nat) (b : AdapterBehavior) : Nat :=
  min b.duration perProviderTimeoutMs

/-- One registered provider as the orchestrator sees it: its
`isEnabled()` flag and its behavior on the input under consideration. -/
structure ProviderSpec where
  enabled : Bool
  behavior : AdapterBehavior
deriving DecidableEq, Repr

/-- The orchestrator configuration fields the dispatch policies read. -/
structure OrchestratorConfig where
  perProviderTimeoutMs : Nat
  hedgeDelayMs : Nat
  failureThreshold : Nat
  resetTimeoutMs : Nat
deriving DecidableEq, Repr

/-- The embedded `result.errors?.[0] || 'Service unavailable'` (first error if the
list is present, non-empty, and its head is truthy). -/
def firstErrorOr (r : NormalizedResult) (fallback : String) : String :=
  match r.errors with
  | some (e :: _) => if e ≠ "" then e else fallback
  | _ => fallback

/-- Mutable context threaded through the waterfall loop: the `errors`
and `triedProviders` arrays, each provider's breaker, and (for the
theorems) the providers whose wrapped adapter call actually ran. -/
structure WaterfallCtx where
  errors : List String
  tried : List AddressProvider
  invoked : List AddressProvider
  breakers : AddressProvider → CircuitBreaker

/-- The synthetic all-providers-exhausted result (end of
`executeWaterfallValidation`). -/
def waterfallExhausted (ctx : WaterfallCtx) : NormalizedResult :=
  { isValid := false
    standardizedAddress := none
    suggestions := none
    errors := some ["All address validation services are unavailable: " ++
      String.intercalate ", " ctx.errors]
    serviceUnavailable := some true
    provider := ctx.tried.headD AddressProvider.smarty
    latencyMs := 0
    didFallback := some true
    confidence := none }

/-- The loop of `AddressOrchestrator.executeWaterfallValidation` over
`providerOrder`, with `Date.now()` fixed at `now` for breaker checks.
Returns the resolved result together with the final context. -/
def waterfallGo (cfg : OrchestratorConfig)
    (specs : AddressProvider → Option ProviderSpec) (now : Nat) :
    List AddressProvider → WaterfallCtx → NormalizedResult × WaterfallCtx
  | [], ctx => (waterfallExhausted ctx, ctx)
  | p :: rest, ctx =>
    match specs p with
    | none => waterfallGo cfg specs now rest ctx
    | some spec =>
      if ¬spec.enabled then
        waterfallGo cfg specs now rest ctx
      else
        let ctx1 := { ctx with tried := ctx.tried ++ [p] }
        let outcome := executeWithTimeout p.toName cfg.perProviderTimeoutMs spec.behavior
        let step := cbExecute cfg.failureThreshold cfg.resetTimeoutMs (ctx1.breakers p) now outcome
        let ctx2 : WaterfallCtx :=
          { ctx1 with
            breakers := fun q => if q = p then step.2.1 else ctx1.breakers q
            invoked := if step.2.2 then ctx1.invoked ++ [p] else ctx1.invoked }
        match step.1 with
        | some (.resolves r) =>
            if r.isValid then
              ({ r with didFallback := some (decide (ctx2.tried.length > 1)) }, ctx2)
            else if r.unavailable then
              waterfallGo cfg specs now rest
                { ctx2 with errors := ctx2.errors ++
                    [p.toName ++ ": " ++ firstErrorOr r "Service unavailable"] }
            else
              ({ r with didFallback := some (decide (ctx2.tried.length > 1)) }, ctx2)
        | some (.fails msg) =>
            waterfallGo cfg specs now rest
              { ctx2 with errors := ctx2.errors ++ [p.toName ++ ": " ++ msg] }
        | none =>
            -- breaker open: `Error('Circuit breaker is open')` caught by the loop
            waterfallGo cfg specs now rest
              { ctx2 with errors := ctx2.errors ++
                  [p.toName ++ ": " ++ "Circuit breaker is open"] }

/-- A fresh waterfall context with the given breaker table. -/
def initCtx (breakers : AddressProvider → CircuitBreaker) : WaterfallCtx :=
  { errors := [], tried := [], invoked := [], breakers := breakers }

/-- The embedded `executeWaterfallValidation` from a fresh context. -/
def executeWaterfallValidation (cfg : OrchestratorConfig)
    (specs : AddressProvider → Option ProviderSpec)
    (order : List AddressProvider) (now : Nat)
    (breakers : AddressProvider → CircuitBreaker) :
    NormalizedResult × WaterfallCtx :=
  waterfallGo cfg specs now order (initCtx breakers)

/-! ### Hedged dispatch

Each enabled provider's guarded call is started after
`i * hedgeDelayMs`; its promise resolves only when the breaker-guarded
call resolves (the `catch` swallows rejections without resolving).
`Promise.race` yields the earliest-settling resolved promise, or — when
no promise ever resolves — never settles, which the model renders as
`Option.none`. -/

/-- The promise of one hedged provider: `some (settleTime, result)` if it
ever resolves, `none` if it stays pending forever. -/
def hedgedPromise (cfg : OrchestratorConfig) (now : Nat) (i : Nat)
    (p : AddressProvider) (spec : ProviderSpec)
    (cb : CircuitBreaker) : Option (Nat × NormalizedResult) :=
  let start := now + i * cfg.hedgeDelayMs
  let outcome := executeWithTimeout p.toName cfg.perProviderTimeoutMs spec.behavior
  match (cbExecute cfg.failureThreshold cfg.resetTimeoutMs cb start outcome).1 with
  | some (.resolves r) =>
      some (start + guardedDuration cfg.perProviderTimeoutMs spec.behavior, r)
  | _ => none

/-- The embedded `Promise.race`: the first promise (in settle-time order, ties broken
by registration order) that resolves; pending forever if none does. -/
def raceWinner : List (Nat × NormalizedResult) → Option (Nat × NormalizedResult)
  | [] => none
  | c :: cs =>
    match raceWinner cs with
    | none => some c
    | some best => if best.1 < c.1 then some best else some c

/-- The synthetic no-providers-configured result of
`executeHedgedValidation` (note: no `didFallback` field). -/
def hedgedNoProviders : NormalizedResult :=
  { isValid := false
    standardizedAddress := none
    suggestions := none
    errors := some ["No address validation providers are configured"]
    serviceUnavailable := some true
    provider := AddressProvider.smarty
    latencyMs := 0
    didFallback := none
    confidence := none }

/-- The embedded `AddressOrchestrator.executeHedgedValidation`.  `none` models a
promise that never settles (every guarded call rejected, so no promise
of the race ever resolves). -/
def executeHedgedValidation (cfg : OrchestratorConfig)
    (specs : AddressProvider → Option ProviderSpec)
    (order : List AddressProvider) (now : Nat)
    (breakers : AddressProvider → CircuitBreaker) : Option NormalizedResult :=
  let enabledProviders := order.filter (fun p =>
    match specs p with
    | some s => s.enabled
    | none => false)
  if enabledProviders = [] then
    some hedgedNoProviders
  else
    let candidates := enabledProviders.enum.filterMap (fun iq =>
      match specs iq.2 with
      | some s => hedgedPromise cfg now iq.1 iq.2 s (breakers iq.2)
      | none => none)
    (raceWinner candidates).map Prod.snd

/-! ## Validation cache (`addressCache.ts`, class `AddressCache`)

JavaScript strings are embedded as lists of character codes (`List Nat`)
so that the canonicalization pipeline — `trim()`, `toUpperCase()`,
`replace(/\s+/g, ' ')`, `replace(/[^\d-]/g, '')` — is directly
computable and provable.  `\s` is modelled by the four common
whitespace code points (space, tab, LF, CR). -/

/-- Whitespace test for the `\s` character class. -/
def isWsChar (c : Nat) : Bool :=
  c = 32 || c = 9 || c = 10 || c = 13

/-- ASCII upper-casing, the effect of `toUpperCase()` on the code points
the application handles. -/
def toUpperChar (c : Nat) : Nat :=
  if 97 ≤ c ∧ c ≤ 122 then c - 32 else c

/-- The embedded `toUpperCase()` on a whole string. -/
def listUpper (s : List Nat) : List Nat :=
  s.map toUpperChar

/-- Leading-whitespace removal. -/
def wsTrimLeft (s : List Nat) : List Nat :=
  s.dropWhile isWsChar

/-- Trailing-whitespace removal. -/
def wsTrimRight (s : List Nat) : List Nat :=
  (s.reverse.dropWhile isWsChar).reverse

/-- The embedded `String.prototype.trim`. -/
def wsTrim (s : List Nat) : List Nat :=
  wsTrimRight (wsTrimLeft s)

/-- The embedded `replace(/\s+/g, ' ')`: every maximal run of whitespace becomes one
space. -/
def collapseWs : List Nat → List Nat
  | [] => []
  | [c] => if isWsChar c then [32] else [c]
  | c :: d :: cs =>
    if isWsChar c ∧ isWsChar d then collapseWs (d :: cs)
    else (if isWsChar c then 32 else c) :: collapseWs (d :: cs)

/-- The embedded `?.trim().toUpperCase().replace(/\s+/g, ' ')` applied to one street /
secondary / city field. -/
def canonField (s : List Nat) : List Nat :=
  collapseWs (listUpper (wsTrim s))

/-- ASCII digit test for the `\d` character class. -/
def isDigitChar (c : Nat) : Bool :=
  48 ≤ c ∧ c ≤ 57

/-- The embedded `?.trim().replace(/[^\d-]/g, '')` applied to the postal code
(keep only digits and hyphens, code 45). -/
def canonZip (s : List Nat) : List Nat :=
  (wsTrim s).filter (fun c => isDigitChar c || c = 45)

/-- The embedded `AddressValidationInput` from `shared/schema.ts`, with strings as
code-point lists. -/
structure AddressValidationInput where
  streetAddress : List Nat
  city : Option (List Nat)
  state : List Nat
  ZIPCode : Option (List Nat)
  secondaryAddress : Option (List Nat)
deriving DecidableEq, Repr

/-- The embedded `AddressCache.canonicalizeAddress`: canonicalize each field, drop
missing and empty parts (`filter(Boolean)` — the empty string is falsy),
and join with `'|'` (code 124). -/
def canonicalizeAddress (input : AddressValidationInput) : List Nat :=
  let parts : List (Option (List Nat)) :=
    [some (canonField input.streetAddress),
     input.secondaryAddress.map canonField,
     input.city.map canonField,
     some (listUpper (wsTrim input.state)),
     input.ZIPCode.map canonZip]
  List.intercalate [124]
    ((parts.filterMap id).filter (fun s => !s.isEmpty))

/-- One stored cache entry (`CacheEntry` in `addressCache.ts`). -/
structure CacheEntry where
  result : NormalizedResult
  timestamp : Nat
  ttl : Nat
deriving DecidableEq, Repr

/-- The cache's mutable state: the entry `Map` in insertion order, the
size bound, and the keys of the module-level `inFlightRequests` map. -/
structure CacheState where
  entries : List (List Nat × CacheEntry)
  maxSize : Nat
  inFlight : List (List Nat)

/-- The embedded `Map.get` on the entry table. -/
def lookupEntry (key : List Nat) :
    List (List Nat × CacheEntry) → Option CacheEntry
  | [] => none
  | (k, e) :: rest => if k = key then some e else lookupEntry key rest

/-- The embedded `Map.delete` on the entry table (keys are unique by construction). -/
def deleteEntry (key : List Nat)
    (l : List (List Nat × CacheEntry)) : List (List Nat × CacheEntry) :=
  l.filter (fun kv => decide (kv.1 ≠ key))

/-- The embedded `Map.set`: update in place if present (the JS `Map` keeps the original
insertion position), otherwise append. -/
def setEntry (key : List Nat) (e : CacheEntry) :
    List (List Nat × CacheEntry) → List (List Nat × CacheEntry)
  | [] => [(key, e)]
  | (k, e') :: rest =>
    if k = key then (key, e) :: rest else (k, e') :: setEntry key e rest

/-- The embedded `AddressCache.get`: a hit within TTL returns a copy of the stored
result with `latencyMs` reset to 0; an expired entry is deleted lazily
and the lookup misses. -/
def cacheGet (st : CacheState) (input : AddressValidationInput) (now : Nat) :
    Option NormalizedResult × CacheState :=
  let key := canonicalizeAddress input
  match lookupEntry key st.entries with
  | none => (none, st)
  | some e =>
    if now - e.timestamp > e.ttl then
      (none, { st with entries := deleteEntry key st.entries })
    else
      (some { e.result with latencyMs := 0 }, st)

/-- The embedded `AddressCache.set`: evict the single oldest-inserted entry when the
size bound is reached, then store the result under the canonical key. -/
def cacheSet (st : CacheState) (input : AddressValidationInput)
    (r : NormalizedResult) (ttl now : Nat) : CacheState :=
  let key := canonicalizeAddress input
  let entries1 := if st.maxSize ≤ st.entries.length then st.entries.tail else st.entries
  { st with entries := setEntry key { result := r, timestamp := now, ttl := ttl } entries1 }

/-- What one call of `AddressCache.getOrExecute` does before any
executor settles. -/
inductive CacheAction
  | cacheHit (r : NormalizedResult)
  | joinInFlight
  | startExecutor
deriving DecidableEq, Repr

/-- The synchronous prefix of `AddressCache.getOrExecute`: check the
cache, then the in-flight table; only if both miss is a new executor
started and registered in flight. -/
def getOrExecuteStep (st : CacheState) (input : AddressValidationInput)
    (now : Nat) : CacheAction × CacheState :=
  match cacheGet st input now with
  | (some cached, st') => (.cacheHit cached, st')
  | (none, st') =>
    let key := canonicalizeAddress input
    if key ∈ st'.inFlight then
      (.joinInFlight, st')
    else
      (.startExecutor, { st' with inFlight := st'.inFlight ++ [key] })

/-- The `.then` continuation of the executor promise: remove the key from
the in-flight table, then cache the result under `positiveTtl` if
`isValid` and `negativeTtl` otherwise. -/
def settleSuccess (st : CacheState) (input : AddressValidationInput)
    (r : NormalizedResult) (now positiveTtl negativeTtl : Nat) : CacheState :=
  let key := canonicalizeAddress input
  let st1 := { st with inFlight := st.inFlight.filter (fun k => decide (k ≠ key)) }
  cacheSet st1 input r (if r.isValid then positiveTtl else negativeTtl) now

/-- The `.catch` continuation of the executor promise: remove the key
from the in-flight table and re-throw without caching. -/
def settleFailure (st : CacheState) (input : AddressValidationInput) : CacheState :=
  let key := canonicalizeAddress input
  { st with inFlight := st.inFlight.filter (fun k => decide (k ≠ key)) }

/-! ## Sample results used by concrete witnesses -/

/-- A minimal valid result. -/
def sampleValidResult (p : AddressProvider) : NormalizedResult :=
  { isValid := true, standardizedAddress := none, suggestions := none
    errors := none, serviceUnavailable := none, provider := p
    latencyMs := 5, didFallback := none, confidence := some 80 }

/-- A minimal transiently-unavailable result. -/
def sampleUnavailableResult (p : AddressProvider) : NormalizedResult :=
  { isValid := false, standardizedAddress := none, suggestions := none
    errors := some ["Service down"], serviceUnavailable := some true
    provider := p, latencyMs := 5, didFallback := none, confidence := none }

/-- A minimal confident rejection (invalid address, service reachable). -/
def sampleRejectResult (p : AddressProvider) : NormalizedResult :=
  { isValid := false, standardizedAddress := none, suggestions := none
    errors := some ["Address not found or invalid."], serviceUnavailable := none
    provider := p, latencyMs := 5, didFallback := none, confidence := none }

/-- The breaker as constructed by `initializeCircuitBreakers`. -/
def freshBreaker : CircuitBreaker :=
  { failures := 0, lastFailureTime := 0, state := CBState.closed }

/-- An enabled provider that resolves `r` after `d` ms. -/
def answerSpec (r : NormalizedResult) (d : Nat) : ProviderSpec :=
  { enabled := true, behavior := .answers r d }

/-- An enabled provider that throws `msg` after `d` ms. -/
def throwSpec (msg : String) (d : Nat) : ProviderSpec :=
  { enabled := true, behavior := .throws msg d }

/-- A disabled provider (missing credentials). -/
def disabledSpec (b : AdapterBehavior) : ProviderSpec :=
  { enabled := false, behavior := b }

/-- The default orchestrator configuration (`addressConfig.ts`:
2000 ms per-provider timeout, 250 ms hedge stagger, breaker threshold 5,
reset 30000 ms). -/
def defaultCfg : OrchestratorConfig :=
  { perProviderTimeoutMs := 2000, hedgeDelayMs := 250
    failureThreshold := 5, resetTimeoutMs := 30000 }

/-! ## C3: circuit-breaker threshold / probe cycle -/

/-- C3: with failure threshold 5 and reset timeout `T`, after 5 recorded
consecutive failures (at times `t1..t5`) the breaker is open with 5
failures; a call attempted before `T` has elapsed since `t5` is rejected
without invoking the operation and leaves the breaker unchanged; a call
attempted once `T` has elapsed is let through as a probe; a successful
probe resets the counter to 0 and closes the breaker, so the following
single failure leaves the breaker closed instead of reopening it; a
failing probe reopens the breaker. -/
theorem circuitBreaker_threshold_probe_cycle
    (T t1 t2 t3 t4 t5 nowEarly nowProbe now2 : Nat) (m : String)
    (r : NormalizedResult) (op : CallOutcome)
    (hEarly : nowEarly - t5 < T) (hProbe : T ≤ nowProbe - t5) :
    cbRunSeq 5 T [(t1, .fails m), (t2, .fails m), (t3, .fails m),
        (t4, .fails m), (t5, .fails m)] freshBreaker =
      { failures := 5, lastFailureTime := t5, state := CBState.opened } ∧
    cbExecute 5 T { failures := 5, lastFailureTime := t5, state := CBState.opened }
        nowEarly op =
      (none, { failures := 5, lastFailureTime := t5, state := CBState.opened }, false) ∧
    (cbExecute 5 T { failures := 5, lastFailureTime := t5, state := CBState.opened }
        nowProbe op).2.2 = true ∧
    cbExecute 5 T { failures := 5, lastFailureTime := t5, state := CBState.opened }
        nowProbe (.resolves r) =
      (some (.resolves r),
       { failures := 0, lastFailureTime := t5, state := CBState.closed }, true) ∧
    (cbAfter 5 T { failures := 0, lastFailureTime := t5, state := CBState.closed }
        now2 (.fails m)).state = CBState.closed ∧
    (cbAfter 5 T { failures := 5, lastFailureTime := t5, state := CBState.opened }
        nowProbe (.fails m)).state = CBState.opened := by
  have hP : ¬(nowProbe - t5 < T) := not_lt.mpr hProbe
  refine ⟨?_, ?_, ?_, ?_, ?_, ?_⟩
  · simp [cbRunSeq, cbAfter, cbExecute, freshBreaker]
  · simp [cbExecute, hEarly]
  · cases op <;> simp [cbExecute, hP]
  · simp [cbExecute, hP]
  · simp [cbAfter, cbExecute]
  · simp [cbAfter, cbExecute, hP]

/-- Witness for C3 at concrete times (threshold 5, reset 30000 ms). -/
theorem circuitBreaker_threshold_probe_cycle_witness :
    (100 - 50 < 30000 ∧ 30000 ≤ 30050 - 50) ∧
    cbRunSeq 5 30000 [(10, .fails "e"), (20, .fails "e"), (30, .fails "e"),
        (40, .fails "e"), (50, .fails "e")] freshBreaker =
      { failures := 5, lastFailureTime := 50, state := CBState.opened } := by
  refine ⟨⟨by decide, by decide⟩, ?_⟩
  exact (circuitBreaker_threshold_probe_cycle 30000 10 20 30 40 50 100 30050 99999
    "e" (sampleValidResult AddressProvider.smarty) (.fails "e")
    (by decide) (by decide)).1

/-! ## C9: any resolved guarded call is a breaker success -/

/-- A resolving guarded call from a closed breaker leaves the breaker
closed with a zeroed counter (helper for sequences of resolves). -/
theorem cbAfter_resolves_closed (th T : Nat) (cb : CircuitBreaker) (now : Nat)
    (r : NormalizedResult) (h : cb.state = CBState.closed) :
    cbAfter th T cb now (.resolves r) =
      { failures := 0, lastFailureTime := cb.lastFailureTime,
        state := CBState.closed } := by
  simp [cbAfter, cbExecute, h]

/-- Threading only resolving outcomes from a closed breaker keeps the
state closed after every prefix of the call sequence. -/
theorem cbRunSeq_resolves_closed (th T : Nat) :
    ∀ (seq : List (Nat × NormalizedResult)) (cb : CircuitBreaker),
      cb.state = CBState.closed → ∀ n : Nat,
      (cbRunSeq th T ((seq.take n).map (fun s => (s.1, CallOutcome.resolves s.2)))
        cb).state = CBState.closed
  | [], cb, h, n => by simpa [cbRunSeq] using h
  | s :: rest, cb, h, 0 => by simpa [cbRunSeq] using h
  | s :: rest, cb, h, n + 1 => by
      have hstep := cbAfter_resolves_closed th T cb s.1 s.2 h
      simpa [cbRunSeq, hstep] using
        cbRunSeq_resolves_closed th T rest
          { failures := 0, lastFailureTime := cb.lastFailureTime,
            state := CBState.closed } rfl n

/-- C9: a guarded call whose wrapped operation resolves — with any
`NormalizedResult`, including one carrying `serviceUnavailable=true` —
is recorded by the breaker as a success (`onSuccess`: counter 0, state
closed); a rejected call (thrown adapter error or per-provider timeout)
increments the counter; and from a closed breaker a sequence of calls
that all resolve leaves the breaker closed after every prefix, so a
provider that consistently resolves service-unavailable results never
opens its breaker. -/
theorem resolved_call_is_breaker_success (th T : Nat)
    (cb cbF : CircuitBreaker) (now nowF : Nat) (r : NormalizedResult)
    (m : String) (seq : List (Nat × NormalizedResult)) (n : Nat)
    (hInv : (cbExecute th T cb now (.resolves r)).2.2 = true)
    (hInvF : (cbExecute th T cbF nowF (.fails m)).2.2 = true)
    (hClosed : cb.state = CBState.closed) :
    (cbAfter th T cb now (.resolves r)).failures = 0 ∧
    (cbAfter th T cb now (.resolves r)).state = CBState.closed ∧
    (cbAfter th T cbF nowF (.fails m)).failures = cbF.failures + 1 ∧
    (cbRunSeq th T ((seq.take n).map (fun s => (s.1, CallOutcome.resolves s.2)))
      cb).state = CBState.closed := by
  refine ⟨?_, ?_, ?_, cbRunSeq_resolves_closed th T seq cb hClosed n⟩
  · by_cases hc : cb.state = CBState.opened ∧ now - cb.lastFailureTime < T
    · simp [cbExecute, hc] at hInv
    · simp [cbAfter, cbExecute, hc]
  · by_cases hc : cb.state = CBState.opened ∧ now - cb.lastFailureTime < T
    · simp [cbExecute, hc] at hInv
    · simp [cbAfter, cbExecute, hc]
  · by_cases hc : cbF.state = CBState.opened ∧ nowF - cbF.lastFailureTime < T
    · simp [cbExecute, hc] at hInvF
    · simp only [cbAfter, cbExecute, hc, if_false]
      split <;> simp

/-- Witness for C9: a breaker invokes an operation that resolves a
rate-limited (service-unavailable) Smarty result; the breaker records a
success, and a run of three such resolves keeps it closed. -/
theorem resolved_call_is_breaker_success_witness :
    (cbExecute 5 30000 freshBreaker 10
        (.resolves (sampleUnavailableResult AddressProvider.smarty))).2.2 = true ∧
    (cbExecute 5 30000 freshBreaker 10 (.fails "boom")).2.2 = true ∧
    freshBreaker.state = CBState.closed ∧
    (cbAfter 5 30000 freshBreaker 10
      (.resolves (sampleUnavailableResult AddressProvider.smarty))).failures = 0 ∧
    (cbRunSeq 5 30000
      (([(1, sampleUnavailableResult AddressProvider.smarty),
         (2, sampleUnavailableResult AddressProvider.smarty),
         (3, sampleUnavailableResult AddressProvider.smarty)].take 3).map
        (fun s => (s.1, CallOutcome.resolves s.2))) freshBreaker).state =
      CBState.closed := by
  refine ⟨by decide, by decide, by decide, ?_, ?_⟩
  · exact (resolved_call_is_breaker_success 5 30000 freshBreaker freshBreaker
      10 10 (sampleUnavailableResult AddressProvider.smarty) "boom"
      [(1, sampleUnavailableResult AddressProvider.smarty),
       (2, sampleUnavailableResult AddressProvider.smarty),
       (3, sampleUnavailableResult AddressProvider.smarty)] 3
      (by decide) (by decide) (by decide)).1
  · exact (resolved_call_is_breaker_success 5 30000 freshBreaker freshBreaker
      10 10 (sampleUnavailableResult AddressProvider.smarty) "boom"
      [(1, sampleUnavailableResult AddressProvider.smarty),
       (2, sampleUnavailableResult AddressProvider.smarty),
       (3, sampleUnavailableResult AddressProvider.smarty)] 3
      (by decide) (by decide) (by decide)).2.2.2

/-! ## C5: waterfall over [A, B, C] -/

/-- C5: in waterfall mode over enabled providers ordered `[a, b, c]`
with closed breakers: (i) if `a` resolves a confident rejection
(`isValid=false`, `serviceUnavailable` not truthy) that result is
returned at once with `didFallback=false`, and only `a` was invoked —
`b` and `c` never run; (ii) if `a` resolves a service-unavailable result
and `b` resolves a valid one, the final result is `b`'s result with
`didFallback=true` (hence `b`'s provider identity and standardized
address), and exactly `a` then `b` were invoked. -/
theorem waterfall_rejection_stops_fallback_reflects_b
    (cfg : OrchestratorConfig) (a b c : AddressProvider)
    (specs₁ specs₂ : AddressProvider → Option ProviderSpec)
    (breakers : AddressProvider → CircuitBreaker)
    (rA rA' rB : NormalizedResult) (dA dA' dB now : Nat)
    (hab : a ≠ b)
    (h1A : specs₁ a = some { enabled := true, behavior := .answers rA dA })
    (h1dA : dA < cfg.perProviderTimeoutMs)
    (h1valid : rA.isValid = false) (h1unavail : rA.unavailable = false)
    (h2A : specs₂ a = some { enabled := true, behavior := .answers rA' dA' })
    (h2dA : dA' < cfg.perProviderTimeoutMs)
    (h2Avalid : rA'.isValid = false) (h2Aunavail : rA'.unavailable = true)
    (h2B : specs₂ b = some { enabled := true, behavior := .answers rB dB })
    (h2dB : dB < cfg.perProviderTimeoutMs)
    (h2Bvalid : rB.isValid = true)
    (hBa : (breakers a).state = CBState.closed)
    (hBb : (breakers b).state = CBState.closed) :
    (executeWaterfallValidation cfg specs₁ [a, b, c] now breakers).1 =
      { rA with didFallback := some false } ∧
    (executeWaterfallValidation cfg specs₁ [a, b, c] now breakers).2.invoked = [a] ∧
    (executeWaterfallValidation cfg specs₂ [a, b, c] now breakers).1 =
      { rB with didFallback := some true } ∧
    (executeWaterfallValidation cfg specs₂ [a, b, c] now breakers).2.invoked = [a, b] := by
  have hba : ¬(b = a) := fun h => hab h.symm
  constructor
  · simp [executeWaterfallValidation, waterfallGo, initCtx, h1A,
      executeWithTimeout, AdapterBehavior.duration, h1dA, cbExecute, hBa,
      h1valid, h1unavail]
  constructor
  · simp [executeWaterfallValidation, waterfallGo, initCtx, h1A,
      executeWithTimeout, AdapterBehavior.duration, h1dA, cbExecute, hBa,
      h1valid, h1unavail]
  constructor
  · simp [executeWaterfallValidation, waterfallGo, initCtx, h2A, h2B,
      executeWithTimeout, AdapterBehavior.duration, h2dA, h2dB, cbExecute,
      hBa, hBb, h2Avalid, h2Aunavail, h2Bvalid, hba]
  · simp [executeWaterfallValidation, waterfallGo, initCtx, h2A, h2B,
      executeWithTimeout, AdapterBehavior.duration, h2dA, h2dB, cbExecute,
      hBa, hBb, h2Avalid, h2Aunavail, h2Bvalid, hba]

/-- Scenario-1 provider table for the C5 witness: Smarty rejects
confidently, the others would answer valid. -/
def c5Specs₁ : AddressProvider → Option ProviderSpec := fun p =>
  match p with
  | AddressProvider.smarty =>
      some (answerSpec (sampleRejectResult AddressProvider.smarty) 5)
  | _ => some (answerSpec (sampleValidResult AddressProvider.google) 5)

/-- Scenario-2 provider table for the C5 witness: Smarty unavailable,
the others answer valid. -/
def c5Specs₂ : AddressProvider → Option ProviderSpec := fun p =>
  match p with
  | AddressProvider.smarty =>
      some (answerSpec (sampleUnavailableResult AddressProvider.smarty) 5)
  | _ => some (answerSpec (sampleValidResult AddressProvider.google) 5)

/-- Witness for C5 with concrete providers and results. -/
theorem waterfall_rejection_stops_fallback_reflects_b_witness :
    (executeWaterfallValidation defaultCfg c5Specs₁
        [AddressProvider.smarty, AddressProvider.google, AddressProvider.usps]
        1000 (fun _ => freshBreaker)).1 =
      { sampleRejectResult AddressProvider.smarty with didFallback := some false } ∧
    (executeWaterfallValidation defaultCfg c5Specs₂
        [AddressProvider.smarty, AddressProvider.google, AddressProvider.usps]
        1000 (fun _ => freshBreaker)).1 =
      { sampleValidResult AddressProvider.google with didFallback := some true } := by
  have h := waterfall_rejection_stops_fallback_reflects_b defaultCfg
    AddressProvider.smarty AddressProvider.google AddressProvider.usps
    c5Specs₁ c5Specs₂ (fun _ => freshBreaker)
    (sampleRejectResult AddressProvider.smarty)
    (sampleUnavailableResult AddressProvider.smarty)
    (sampleValidResult AddressProvider.google)
    5 5 5 1000 (by decide) (by decide) (by decide) (by decide) (by decide)
    (by decide) (by decide) (by decide) (by decide) (by decide) (by decide)
    (by decide) (by decide) (by decide)
  exact ⟨h.1, h.2.2.1⟩

/-! ## C7: disabled provider skipped, ZIP+4 from the fallback provider -/

/-- A Google response standardizing the scenario input to
`95014` with ZIP+4 extension `2084` (DPV-confirmed, complete, not
vacant). -/
def c7GoogleResp : GoogleResponse :=
  { verdict :=
      { addressComplete := true, hasUnconfirmedComponents := false
        hasInferredComponents := false, hasReplacedComponents := false }
    postalAddress :=
      { addressLines := ["1 INFINITE LOOP"], administrativeArea := "CA"
        locality := "CUPERTINO", postalCode := "95014" }
    addressComponents := []
    uspsData := some
      { standardizedAddress :=
          { firstAddressLine := "1 INFINITE LOOP", secondAddressLine := none
            cityName := "CUPERTINO", stateAbbreviation := "CA"
            zipCode := "95014", zipCodeExtension := some "2084" }
        dpvConfirmation := "Y", vacant := "N" } }

/-- C7's provider table: provider A (Smarty) disabled, provider B
(Google) resolving the mapped response, USPS irrelevant. -/
def c7Specs : AddressProvider → Option ProviderSpec := fun p =>
  match p with
  | AddressProvider.smarty =>
      some (disabledSpec (.answers (sampleValidResult AddressProvider.smarty) 5))
  | AddressProvider.google =>
      some (answerSpec (googleMapResponse c7GoogleResp 5) 5)
  | AddressProvider.usps =>
      some (answerSpec (sampleValidResult AddressProvider.usps) 5)

/-- The result of the C7 scenario run. -/
def c7Run : NormalizedResult × WaterfallCtx :=
  executeWaterfallValidation defaultCfg c7Specs
    [AddressProvider.smarty, AddressProvider.google, AddressProvider.usps]
    1000 (fun _ => freshBreaker)

/-- C7 counterexample: in the scenario (provider A disabled, provider B
standardizing the code to 95014 + 2084 through `mapResponse`), the final
`standardizedAddress.ZIPPlus4` is the full `"95014-2084"` — the claimed
value `"2084"` is not what the code produces. -/
theorem c7_zipPlus4_scenario_counterexample :
    (c7Run.1.standardizedAddress.map StandardizedAddress.ZIPPlus4) =
      some (some "95014-2084") ∧
    ¬((c7Run.1.standardizedAddress.map StandardizedAddress.ZIPPlus4) =
      some (some "2084")) := by
  constructor
  · decide
  · decide

/-- C7 amended: same scenario, but with `ZIPPlus4 = "95014-2084"` (the
Smarty/Google mappers store `zip ++ "-" ++ extension`, not the bare
4-digit extension): the result is valid, comes from Google, carries
`didFallback=false`, and the disabled provider was never counted as
tried nor invoked. -/
theorem c7_zipPlus4_scenario_amended :
    c7Run.1.isValid = true ∧
    c7Run.1.provider = AddressProvider.google ∧
    c7Run.1.didFallback = some false ∧
    (c7Run.1.standardizedAddress.map StandardizedAddress.ZIPPlus4) =
      some (some "95014-2084") ∧
    c7Run.2.tried = [AddressProvider.google] ∧
    c7Run.2.invoked = [AddressProvider.google] := by
  refine ⟨by decide, by decide, by decide, by decide, by decide, by decide⟩

/-! ## C6: adapter error-classification policy -/

/-- C6 counterexample: a rate-limit signal from the USPS address
endpoint (HTTP 429, a non-404 error status) is mapped by
`USPSService.validateAddress` to `isValid=false` with populated errors
and `serviceUnavailable` left unset — not to `serviceUnavailable=true`
as the claim asserts for every adapter. -/
theorem usps_rate_limit_not_service_unavailable :
    (uspsValidateAddress true (.httpError 429) 7).serviceUnavailable = none ∧
    ¬((uspsValidateAddress true (.httpError 429) 7).serviceUnavailable = some true) ∧
    (uspsValidateAddress true (.httpError 429) 7).isValid = false ∧
    ¬((uspsValidateAddress true (.httpError 429) 7).errors = none) := by
  refine ⟨by decide, by decide, by decide, by decide⟩

/-- C6 amended: authentication failures map to `serviceUnavailable=true`
in all three adapters, and rate-limit/quota signals do so in Smarty and
Google; but in USPS a rate-limited address-endpoint response (HTTP 429)
yields `isValid=false` with populated errors and `serviceUnavailable`
unset.  Malformed / not-found responses yield `isValid=false` with
populated errors and `serviceUnavailable` not true (unset in Smarty,
Google and the USPS HTTP branches; explicitly `false` in USPS's generic
exception path). -/
theorem adapter_error_classification (l : Nat)
    (mSR mSA mGR mGA mGen mUA mUGen : String)
    (hSR : strIncludes mSR "429" ∨ strIncludes mSR "quota" ∨
      strIncludes mSR "rate limit")
    (hSA1 : ¬(strIncludes mSA "429" ∨ strIncludes mSA "quota" ∨
      strIncludes mSA "rate limit"))
    (hSA2 : strIncludes mSA "401" ∨ strIncludes mSA "403")
    (hGR : strIncludes mGR "QUOTA_EXCEEDED" ∨ strIncludes mGR "RATE_LIMIT_EXCEEDED")
    (hGA1 : ¬(strIncludes mGA "QUOTA_EXCEEDED" ∨ strIncludes mGA "RATE_LIMIT_EXCEEDED"))
    (hGA2 : strIncludes mGA "UNAUTHENTICATED" ∨ strIncludes mGA "401")
    (hGen1 : ¬(strIncludes mGen "QUOTA_EXCEEDED" ∨ strIncludes mGen "RATE_LIMIT_EXCEEDED"))
    (hGen2 : ¬(strIncludes mGen "UNAUTHENTICATED" ∨ strIncludes mGen "401"))
    (hUA : strIncludes mUA "Failed to obtain USPS access token" ∨
      strIncludes mUA "USPS OAuth failed")
    (hUGen : ¬(strIncludes mUGen "Failed to obtain USPS access token" ∨
      strIncludes mUGen "USPS OAuth failed")) :
    (smartyValidate true (.throws mSR) l).serviceUnavailable = some true ∧
    (smartyValidate true (.throws mSA) l).serviceUnavailable = some true ∧
    ((smartyValidate true .emptyResult l).isValid = false ∧
      ¬((smartyValidate true .emptyResult l).errors = none) ∧
      (smartyValidate true .emptyResult l).serviceUnavailable = none) ∧
    ((smartyValidate true .malformedCandidate l).isValid = false ∧
      ¬((smartyValidate true .malformedCandidate l).errors = none) ∧
      (smartyValidate true .malformedCandidate l).serviceUnavailable = none) ∧
    (googleValidate true (.throws mGR) l).serviceUnavailable = some true ∧
    (googleValidate true (.throws mGA) l).serviceUnavailable = some true ∧
    ((googleValidate true (.throws mGen) l).isValid = false ∧
      ¬((googleValidate true (.throws mGen) l).errors = none) ∧
      (googleValidate true (.throws mGen) l).serviceUnavailable = none) ∧
    (uspsValidateAddress true (.thrown mUA) l).serviceUnavailable = some true ∧
    ((uspsValidateAddress true (.httpError 404) l).isValid = false ∧
      ¬((uspsValidateAddress true (.httpError 404) l).errors = none) ∧
      (uspsValidateAddress true (.httpError 404) l).serviceUnavailable = none) ∧
    ((uspsValidateAddress true (.httpError 429) l).isValid = false ∧
      ¬((uspsValidateAddress true (.httpError 429) l).errors = none) ∧
      (uspsValidateAddress true (.httpError 429) l).serviceUnavailable = none) ∧
    ((uspsValidateAddress true (.thrown mUGen) l).isValid = false ∧
      ¬((uspsValidateAddress true (.thrown mUGen) l).errors = none) ∧
      (uspsValidateAddress true (.thrown mUGen) l).serviceUnavailable = some false) := by
  refine ⟨?_, ?_, ?_, ?_, ?_, ?_, ?_, ?_, ?_, ?_, ?_⟩
  · simp [smartyValidate, hSR]
  · simp [smartyValidate, hSA1, hSA2]
  · simp [smartyValidate]
  · simp [smartyValidate]
  · simp [googleValidate, hGR]
  · simp [googleValidate, hGA1, hGA2]
  · simp [googleValidate, hGen1, hGen2]
  · have : (strIncludes mUA "Failed to obtain USPS access token" ||
        strIncludes mUA "USPS OAuth failed") = true := by
      rcases hUA with h | h <;> simp [h]
    simp [uspsValidateAddress, this]
  · simp [uspsValidateAddress]
  · simp [uspsValidateAddress]
  · have : (strIncludes mUGen "Failed to obtain USPS access token" ||
        strIncludes mUGen "USPS OAuth failed") = false := by
      push_neg at hUGen
      simp [hUGen.1, hUGen.2]
    simp [uspsValidateAddress, this]

/-- Witness for C6's amended statement at concrete thrown messages. -/
theorem adapter_error_classification_witness :
    (smartyValidate true (.throws "Smarty rate limit exceeded") 7).serviceUnavailable
      = some true ∧
    (smartyValidate true (.throws "Smarty authentication failed (403)") 7).serviceUnavailable
      = some true ∧
    (googleValidate true (.throws "QUOTA_EXCEEDED") 7).serviceUnavailable = some true ∧
    (uspsValidateAddress true
      (.thrown "Failed to obtain USPS access token") 7).serviceUnavailable = some true := by
  have h := adapter_error_classification 7
    "Smarty rate limit exceeded" "Smarty authentication failed (403)"
    "QUOTA_EXCEEDED" "UNAUTHENTICATED" "Google API error: 500"
    "Failed to obtain USPS access token" "fetch failed"
    (by decide) (by decide) (by decide) (by decide) (by decide) (by decide)
    (by decide) (by decide) (by decide) (by decide)
  exact ⟨h.1, h.2.1, h.2.2.2.2.1, h.2.2.2.2.2.2.2.1⟩

/-! ## C1: a transiently-unavailable result can win the hedged race -/

/-- The Smarty adapter's mapped rate-limit outcome: a *resolved*
`NormalizedResult` with `serviceUnavailable=true`. -/
def c1RateLimited : NormalizedResult :=
  smartyValidate true (.throws "Smarty rate limit exceeded") 5

/-- C1 provider table: Smarty resolves the rate-limited result after
10 ms; Google resolves a valid result after 10 ms but starts 250 ms
later (hedge stagger); USPS is disabled. -/
def c1Specs : AddressProvider → Option ProviderSpec := fun p =>
  match p with
  | AddressProvider.smarty => some (answerSpec c1RateLimited 10)
  | AddressProvider.google =>
      some (answerSpec (sampleValidResult AddressProvider.google) 10)
  | AddressProvider.usps =>
      some (disabledSpec (.answers (sampleValidResult AddressProvider.usps) 10))

/-- C1: `executeHedgedValidation` races raw promise resolution, and an
adapter-mapped rate-limit result resolves like any other, so it wins the
race over a later valid result from another enabled provider: here the
returned result is the `serviceUnavailable=true` Smarty result even
though Google's guarded call resolves a valid result (at 260 ms).  This
contradicts both the claim and the source's own comment ("Return the
first valid result"). -/
theorem hedged_unavailable_result_wins_race :
    executeHedgedValidation defaultCfg c1Specs
        [AddressProvider.smarty, AddressProvider.google, AddressProvider.usps]
        0 (fun _ => freshBreaker) = some c1RateLimited ∧
    c1RateLimited.serviceUnavailable = some true ∧
    c1RateLimited.isValid = false ∧
    hedgedPromise defaultCfg 0 1 AddressProvider.google
        (answerSpec (sampleValidResult AddressProvider.google) 10) freshBreaker =
      some (260, sampleValidResult AddressProvider.google) ∧
    (sampleValidResult AddressProvider.google).isValid = true := by
  refine ⟨by decide, by decide, by decide, by decide, by decide⟩

/-! ## C2: the public operation need not settle in hedged mode -/

/-- C2 provider table: the only enabled provider's guarded call rejects
(thrown network error); the other two are disabled. -/
def c2Specs : AddressProvider → Option ProviderSpec := fun p =>
  match p with
  | AddressProvider.smarty => some (throwSpec "fetch failed" 5)
  | AddressProvider.google =>
      some (disabledSpec (.answers (sampleValidResult AddressProvider.google) 10))
  | AddressProvider.usps =>
      some (disabledSpec (.answers (sampleValidResult AddressProvider.usps) 10))

/-- C2: with at least one enabled provider whose guarded call rejects
(and no provider resolving), every hedged promise stays pending — the
`catch` swallows the rejection without resolving — so `Promise.race`
and hence `validateAddress` never settle (`none`); the enabled-provider
list is non-empty, so this is not the synthetic no-providers branch.  In
waterfall mode the same provider table resolves the synthetic
exhaustion result, as the claim expects. -/
theorem hedged_all_rejections_never_settles :
    executeHedgedValidation defaultCfg c2Specs
        [AddressProvider.smarty, AddressProvider.google, AddressProvider.usps]
        0 (fun _ => freshBreaker) = none ∧
    ¬([AddressProvider.smarty, AddressProvider.google, AddressProvider.usps].filter
        (fun p => match c2Specs p with
          | some s => s.enabled
          | none => false) = []) ∧
    (executeWaterfallValidation defaultCfg c2Specs
        [AddressProvider.smarty, AddressProvider.google, AddressProvider.usps]
        0 (fun _ => freshBreaker)).1.isValid = false ∧
    (executeWaterfallValidation defaultCfg c2Specs
        [AddressProvider.smarty, AddressProvider.google, AddressProvider.usps]
        0 (fun _ => freshBreaker)).1.serviceUnavailable = some true := by
  refine ⟨by decide, by decide, by decide, by decide⟩

/-! ## C4: in-flight deduplication -/

/-- The embedded `AddressCache.get` never touches the in-flight table. -/
theorem cacheGet_inFlight (st : CacheState) (input : AddressValidationInput)
    (now : Nat) : (cacheGet st input now).2.inFlight = st.inFlight := by
  unfold cacheGet
  dsimp only
  split
  · rfl
  · split <;> rfl

/-- C4: while a request for a canonical key is executing (the key is in
the in-flight table), a second `getOrExecute` call whose input
canonicalizes to the same key never starts a second executor: if the
cache misses it joins the pending in-flight promise and leaves the
in-flight table unchanged, and in every case the action is not
`startExecutor`; when the first call settles — successfully or not —
its key is removed from the in-flight table unconditionally. -/
theorem getOrExecute_inflight_dedup (st : CacheState)
    (input input' : AddressValidationInput) (now : Nat)
    (r : NormalizedResult) (pos neg : Nat)
    (hkey : canonicalizeAddress input' = canonicalizeAddress input)
    (hin : canonicalizeAddress input ∈ st.inFlight) :
    ((cacheGet st input' now).1 = none →
      (getOrExecuteStep st input' now).1 = CacheAction.joinInFlight ∧
      (getOrExecuteStep st input' now).2.inFlight = st.inFlight) ∧
    ¬((getOrExecuteStep st input' now).1 = CacheAction.startExecutor) ∧
    ¬(canonicalizeAddress input ∈ (settleSuccess st input r now pos neg).inFlight) ∧
    ¬(canonicalizeAddress input ∈ (settleFailure st input).inFlight) := by
  have hfl := cacheGet_inFlight st input' now
  refine ⟨?_, ?_, ?_, ?_⟩
  · intro hmiss
    rcases hg : cacheGet st input' now with ⟨o, st'⟩
    rw [hg] at hmiss hfl
    simp at hmiss hfl
    subst hmiss
    constructor
    · simp [getOrExecuteStep, hg, hkey, hfl, hin]
    · simp [getOrExecuteStep, hg, hkey, hfl, hin]
  · rcases hg : cacheGet st input' now with ⟨o, st'⟩
    rw [hg] at hfl
    simp at hfl
    cases o with
    | some cached => simp [getOrExecuteStep, hg]
    | none => simp [getOrExecuteStep, hg, hkey, hfl, hin]
  · simp [settleSuccess, cacheSet]
  · simp [settleFailure]

/-- The cache key codes of the C4/C10 scenario input
(street "1 Infinite Loop", city "Cupertino", state "CA", ZIP 95014). -/
def strCodes (s : String) : List Nat :=
  s.toList.map Char.toNat

/-- The scenario `ValidationInput` used by concrete cache witnesses. -/
def sampleInput : AddressValidationInput :=
  { streetAddress := strCodes "1 Infinite Loop"
    city := some (strCodes "Cupertino")
    state := strCodes "CA"
    ZIPCode := some (strCodes "95014")
    secondaryAddress := none }

/-- A cache state in which `sampleInput`'s key is currently in flight. -/
def inFlightState : CacheState :=
  { entries := [], maxSize := 10000
    inFlight := [canonicalizeAddress sampleInput] }

/-- Witness for C4: with `sampleInput` in flight and an empty entry
table, a second identical request joins the pending promise, and
settlement drains the in-flight table. -/
theorem getOrExecute_inflight_dedup_witness :
    (getOrExecuteStep inFlightState sampleInput 50).1 = CacheAction.joinInFlight ∧
    ¬(canonicalizeAddress sampleInput ∈
      (settleFailure inFlightState sampleInput).inFlight) := by
  have h := getOrExecute_inflight_dedup inFlightState sampleInput sampleInput 50
    (sampleValidResult AddressProvider.smarty) 1000 100
    rfl (by decide)
  exact ⟨(h.1 (by decide)).1, h.2.2.2⟩

/-! ## C10: the exhaustion result is cached under the negative TTL -/

/-- A guarded-call outcome that cannot end the waterfall loop early:
either a rejection, or a resolved result that is neither valid nor a
confident rejection (`isValid=false` and `serviceUnavailable` truthy). -/
def nonWinning (o : CallOutcome) : Bool :=
  match o with
  | .fails _ => true
  | .resolves r => !r.isValid && r.unavailable

/-- A provider that cannot end the waterfall loop early: missing,
disabled, or with a non-winning guarded outcome. -/
def providerNonWinning (cfg : OrchestratorConfig)
    (specs : AddressProvider → Option ProviderSpec) (p : AddressProvider) : Bool :=
  match specs p with
  | some spec => !spec.enabled ||
      nonWinning (executeWithTimeout p.toName cfg.perProviderTimeoutMs spec.behavior)
  | none => true

/-- The embedded `CircuitBreaker.execute` either rejects without invoking or passes
the operation's outcome through unchanged. -/
theorem cbExecute_fst (th T : Nat) (cb : CircuitBreaker) (now : Nat)
    (op : CallOutcome) :
    (cbExecute th T cb now op).1 = none ∨
    (cbExecute th T cb now op).1 = some op := by
  unfold cbExecute
  split
  · exact Or.inl rfl
  · cases op <;> simp

/-- A waterfall run over only non-winning providers ends in the
synthetic exhaustion result. -/
theorem waterfallGo_exhaust (cfg : OrchestratorConfig)
    (specs : AddressProvider → Option ProviderSpec) (now : Nat) :
    ∀ (order : List AddressProvider),
      (∀ p ∈ order, providerNonWinning cfg specs p = true) →
      ∀ ctx, ∃ ctx', waterfallGo cfg specs now order ctx = (waterfallExhausted ctx', ctx')
  | [], _, ctx => ⟨ctx, rfl⟩
  | p :: rest, h, ctx => by
      have hp := h p (List.mem_cons_self p rest)
      have hrest : ∀ q ∈ rest, providerNonWinning cfg specs q = true :=
        fun q hq => h q (List.mem_cons_of_mem p hq)
      unfold waterfallGo
      unfold providerNonWinning at hp
      cases hs : specs p with
      | none =>
          exact waterfallGo_exhaust cfg specs now rest hrest ctx
      | some spec =>
          rw [hs] at hp
          by_cases he : spec.enabled = true
          · simp only [he, Bool.not_true, Bool.false_or] at hp
            simp only [he, not_true, if_false]
            cases ho : executeWithTimeout p.toName cfg.perProviderTimeoutMs spec.behavior with
            | fails m =>
                rcases cbExecute_fst cfg.failureThreshold cfg.resetTimeoutMs
                  (ctx.breakers p) now (.fails m) with h1 | h1
                all_goals simp only [h1]
                all_goals exact waterfallGo_exhaust cfg specs now rest hrest _
            | resolves r =>
                rw [ho] at hp
                simp only [nonWinning, Bool.and_eq_true, Bool.not_eq_true'] at hp
                rcases cbExecute_fst cfg.failureThreshold cfg.resetTimeoutMs
                  (ctx.breakers p) now (.resolves r) with h1 | h1
                all_goals simp only [h1, hp.1, hp.2, Bool.false_eq_true, if_false, if_true]
                all_goals exact waterfallGo_exhaust cfg specs now rest hrest _
          · simp only [Bool.not_eq_true] at he
            simp only [he]
            simpa using waterfallGo_exhaust cfg specs now rest hrest ctx

/-- The embedded `Map.set` followed by `Map.get` at the same key finds the new entry. -/
theorem lookupEntry_setEntry_self (key : List Nat) (e : CacheEntry) :
    ∀ l, lookupEntry key (setEntry key e l) = some e
  | [] => by simp [setEntry, lookupEntry]
  | (k, e') :: rest => by
      by_cases h : k = key
      · simp [setEntry, lookupEntry, h]
      · simp [setEntry, lookupEntry, h, lookupEntry_setEntry_self key e rest]

/-- A fresh (within-TTL) stored entry is returned by `AddressCache.get`
with `latencyMs` reset to 0 and no state change. -/
theorem cacheGet_hit (st : CacheState) (input : AddressValidationInput)
    (now : Nat) (e : CacheEntry)
    (hl : lookupEntry (canonicalizeAddress input) st.entries = some e)
    (hfresh : ¬(now - e.timestamp > e.ttl)) :
    cacheGet st input now = (some { e.result with latencyMs := 0 }, st) := by
  unfold cacheGet
  dsimp only
  rw [hl]
  simp [hfresh]

/-- C10: when the waterfall exhausts every provider (each is missing,
disabled, failing, or resolving service-unavailable), the executor
resolves the synthetic `isValid=false`, `serviceUnavailable=true`
result; settling the cache with it stores it under `negativeTtl` (the
isValid-based TTL choice); and any later request whose input
canonicalizes to the same key within `negativeTtl` ms is answered from
the cache — action `cacheHit` with the stored result at `latencyMs = 0`
and no executor start. -/
theorem waterfall_exhaustion_cached_negative
    (cfg : OrchestratorConfig) (specs : AddressProvider → Option ProviderSpec)
    (order : List AddressProvider) (now nowSettle nowHit posTtl negTtl : Nat)
    (breakers : AddressProvider → CircuitBreaker) (st : CacheState)
    (input input' : AddressValidationInput)
    (hexh : ∀ p ∈ order, providerNonWinning cfg specs p = true)
    (hkey : canonicalizeAddress input' = canonicalizeAddress input)
    (httl : nowHit - nowSettle ≤ negTtl) :
    (executeWaterfallValidation cfg specs order now breakers).1.isValid = false ∧
    (executeWaterfallValidation cfg specs order now breakers).1.serviceUnavailable
      = some true ∧
    lookupEntry (canonicalizeAddress input)
      (settleSuccess st input (executeWaterfallValidation cfg specs order now breakers).1
        nowSettle posTtl negTtl).entries =
      some { result := (executeWaterfallValidation cfg specs order now breakers).1,
             timestamp := nowSettle, ttl := negTtl } ∧
    getOrExecuteStep
      (settleSuccess st input (executeWaterfallValidation cfg specs order now breakers).1
        nowSettle posTtl negTtl) input' nowHit =
      (CacheAction.cacheHit
        { (executeWaterfallValidation cfg specs order now breakers).1 with latencyMs := 0 },
       settleSuccess st input (executeWaterfallValidation cfg specs order now breakers).1
         nowSettle posTtl negTtl) := by
  obtain ⟨ctx', hrun⟩ := waterfallGo_exhaust cfg specs now order hexh (initCtx breakers)
  have hres : (executeWaterfallValidation cfg specs order now breakers).1 =
      waterfallExhausted ctx' := by
    simp [executeWaterfallValidation, hrun]
  have hval : (executeWaterfallValidation cfg specs order now breakers).1.isValid = false := by
    rw [hres]; rfl
  have hsvc : (executeWaterfallValidation cfg specs order now breakers).1.serviceUnavailable
      = some true := by
    rw [hres]; rfl
  have hentries : (settleSuccess st input
      (executeWaterfallValidation cfg specs order now breakers).1
        nowSettle posTtl negTtl).entries =
      setEntry (canonicalizeAddress input)
        { result := (executeWaterfallValidation cfg specs order now breakers).1,
          timestamp := nowSettle, ttl := negTtl }
        (if st.maxSize ≤ st.entries.length then st.entries.tail else st.entries) := by
    simp [settleSuccess, cacheSet, hval]
  have hl : lookupEntry (canonicalizeAddress input)
      (settleSuccess st input (executeWaterfallValidation cfg specs order now breakers).1
        nowSettle posTtl negTtl).entries =
      some { result := (executeWaterfallValidation cfg specs order now breakers).1,
             timestamp := nowSettle, ttl := negTtl } := by
    rw [hentries]
    exact lookupEntry_setEntry_self _ _ _
  refine ⟨hval, hsvc, hl, ?_⟩
  have hl' : lookupEntry (canonicalizeAddress input')
      (settleSuccess st input (executeWaterfallValidation cfg specs order now breakers).1
        nowSettle posTtl negTtl).entries =
      some { result := (executeWaterfallValidation cfg specs order now breakers).1,
             timestamp := nowSettle, ttl := negTtl } := by
    rw [hkey]; exact hl
  have hget := cacheGet_hit _ input' nowHit _ hl' (by simpa using httl)
  simp [getOrExecuteStep, hget]

/-- C10 witness provider table: every provider resolves a
service-unavailable result. -/
def c10Specs : AddressProvider → Option ProviderSpec := fun p =>
  some (answerSpec (sampleUnavailableResult p) 5)

/-- An empty cache at the default capacity. -/
def emptyCache : CacheState :=
  { entries := [], maxSize := 10000, inFlight := [] }

/-- The exhaustion result of the C10 witness run. -/
def c10Res : NormalizedResult :=
  (executeWaterfallValidation defaultCfg c10Specs
    [AddressProvider.smarty, AddressProvider.google, AddressProvider.usps]
    0 (fun _ => freshBreaker)).1

/-- The cache after the C10 witness run settles (positive TTL 7 days,
negative TTL 1 hour, stored at t = 1000). -/
def c10Settled : CacheState :=
  settleSuccess emptyCache sampleInput c10Res 1000 604800000 3600000

/-- Witness for C10: all three providers unavailable; the synthetic
result is stored under the 1-hour negative TTL and a re-query at
t = 2000 ms hits the cache with `latencyMs = 0`. -/
theorem waterfall_exhaustion_cached_negative_witness :
    c10Res.isValid = false ∧
    c10Res.serviceUnavailable = some true ∧
    (getOrExecuteStep c10Settled sampleInput 2000).1 =
      CacheAction.cacheHit { c10Res with latencyMs := 0 } := by
  have h := waterfall_exhaustion_cached_negative defaultCfg c10Specs
    [AddressProvider.smarty, AddressProvider.google, AddressProvider.usps]
    0 1000 2000 604800000 3600000 (fun _ => freshBreaker) emptyCache
    sampleInput sampleInput (by decide) rfl (by decide)
  exact ⟨h.1, h.2.1, congrArg Prod.fst h.2.2.2⟩

/-! ## C8: canonicalization is case- and whitespace-insensitive

The proof characterizes `trim` + `collapse` as "join the whitespace-free
words with single spaces", so that two fields with the same uppercased
word sequence canonicalize identically. -/

/-- The whitespace-separated words of a string. -/
def wsWords : List Nat → List (List Nat)
  | [] => []
  | [c] => if isWsChar c then [] else [[c]]
  | c :: d :: cs =>
    if isWsChar c then wsWords (d :: cs)
    else if isWsChar d then [c] :: wsWords (d :: cs)
    else
      match wsWords (d :: cs) with
      | [] => [[c]]
      | w :: ws => (c :: w) :: ws

/-- Join words with single spaces. -/
def unwords : List (List Nat) → List Nat
  | [] => []
  | [w] => w
  | w :: ws => w ++ 32 :: unwords ws

/-- Upper-casing never creates or destroys whitespace. -/
theorem isWsChar_toUpperChar (c : Nat) :
    isWsChar (toUpperChar c) = isWsChar c := by
  unfold toUpperChar
  split
  · next h =>
      have h1 : isWsChar (c - 32) = false := by
        simp only [isWsChar, Bool.or_eq_false_iff, decide_eq_false_iff_not]
        omega
      have h2 : isWsChar c = false := by
        simp only [isWsChar, Bool.or_eq_false_iff, decide_eq_false_iff_not]
        omega
      rw [h1, h2]
  · rfl

/-- Upper-casing commutes with dropping leading whitespace. -/
theorem wsTrimLeft_listUpper (s : List Nat) :
    wsTrimLeft (listUpper s) = listUpper (wsTrimLeft s) := by
  unfold wsTrimLeft listUpper
  rw [List.dropWhile_map]
  have : (isWsChar ∘ toUpperChar) = isWsChar := by
    funext c
    exact isWsChar_toUpperChar c
  rw [this]

/-- Upper-casing commutes with dropping trailing whitespace. -/
theorem wsTrimRight_listUpper (s : List Nat) :
    wsTrimRight (listUpper s) = listUpper (wsTrimRight s) := by
  unfold wsTrimRight listUpper
  rw [← List.map_reverse, List.dropWhile_map]
  have : (isWsChar ∘ toUpperChar) = isWsChar := by
    funext c
    exact isWsChar_toUpperChar c
  rw [this, List.map_reverse]

/-- Upper-casing commutes with `trim`. -/
theorem wsTrim_listUpper (s : List Nat) :
    wsTrim (listUpper s) = listUpper (wsTrim s) := by
  unfold wsTrim
  rw [wsTrimLeft_listUpper, wsTrimRight_listUpper]

/-- Dropping a leading whitespace character does not change the words. -/
theorem wsWords_cons_ws (c : Nat) (hc : isWsChar c = true) :
    ∀ cs, wsWords (c :: cs) = wsWords cs
  | [] => by simp [wsWords, hc]
  | d :: cs => by simp [wsWords, hc]

/-- Leading-whitespace removal does not change the words. -/
theorem wsWords_wsTrimLeft : ∀ s, wsWords (wsTrimLeft s) = wsWords s
  | [] => rfl
  | c :: cs => by
      by_cases hc : isWsChar c = true
      · rw [wsWords_cons_ws c hc cs, ← wsWords_wsTrimLeft cs]
        unfold wsTrimLeft
        rw [List.dropWhile_cons_of_pos hc]
      · unfold wsTrimLeft
        rw [List.dropWhile_cons_of_neg (by simp [hc])]

/-- An all-whitespace string has no words. -/
theorem wsWords_all_ws : ∀ s, (∀ c ∈ s, isWsChar c = true) → wsWords s = []
  | [], _ => rfl
  | c :: cs, h => by
      rw [wsWords_cons_ws c (h c (List.mem_cons_self c cs)) cs]
      exact wsWords_all_ws cs (fun d hd => h d (List.mem_cons_of_mem c hd))

/-- The head surviving `dropWhile` fails the predicate. -/
theorem head_dropWhile_not (p : Nat → Bool) :
    ∀ (l : List Nat) (h : Nat), (l.dropWhile p).head? = some h → p h = false
  | [], h => by simp [List.dropWhile]
  | c :: cs, h => by
      by_cases hc : p c = true
      · rw [List.dropWhile_cons_of_pos hc]
        exact head_dropWhile_not p cs h
      · rw [List.dropWhile_cons_of_neg (by simp [hc])]
        intro he
        simp at he
        subst he
        simpa using hc

/-- The embedded `trimRight` splits the string into the kept prefix and an all-
whitespace suffix. -/
theorem wsTrimRight_decomp (u : List Nat) :
    ∃ t, u = wsTrimRight u ++ t ∧ ∀ c ∈ t, isWsChar c = true := by
  refine ⟨(u.reverse.takeWhile isWsChar).reverse, ?_, ?_⟩
  · unfold wsTrimRight
    rw [← List.reverse_append, List.takeWhile_append_dropWhile, List.reverse_reverse]
  · intro c hc
    rw [List.mem_reverse] at hc
    exact List.mem_takeWhile_imp hc

/-- Appending an all-whitespace suffix does not change the words. -/
theorem wsWords_append_ws (t : List Nat) (ht : ∀ c ∈ t, isWsChar c = true) :
    ∀ w, wsWords (w ++ t) = wsWords w
  | [] => by simpa using wsWords_all_ws t ht
  | [c] => by
      by_cases hc : isWsChar c = true
      · rw [List.singleton_append, wsWords_cons_ws c hc t, wsWords_all_ws t ht]
        simp [wsWords, hc]
      · cases t with
        | nil => rfl
        | cons d t' =>
            have hd : isWsChar d = true := ht d (List.mem_cons_self d t')
            have ht' : ∀ c ∈ t', isWsChar c = true :=
              fun c hcmem => ht c (List.mem_cons_of_mem d hcmem)
            have : wsWords (d :: t') = [] := by
              rw [wsWords_cons_ws d hd t']
              exact wsWords_all_ws t' ht'
            simp [wsWords, hc, hd, this]
  | c :: d :: w' => by
      have ih := wsWords_append_ws t ht (d :: w')
      by_cases hc : isWsChar c = true
      · rw [List.cons_append, wsWords_cons_ws c hc (d :: w' ++ t),
          wsWords_cons_ws c hc (d :: w')]
        exact ih
      · by_cases hd : isWsChar d = true
        · rw [List.cons_append]
          rw [show (d :: w') ++ t = d :: (w' ++ t) from rfl] at ih
          simp [wsWords, hc, hd, ih]
        · rw [List.cons_append]
          rw [show (d :: w') ++ t = d :: (w' ++ t) from rfl] at ih
          simp [wsWords, hc, hd, ih]

/-- The embedded `trim` does not change the words. -/
theorem wsWords_wsTrim (u : List Nat) : wsWords (wsTrim u) = wsWords u := by
  obtain ⟨t, hdecomp, hws⟩ := wsTrimRight_decomp (wsTrimLeft u)
  unfold wsTrim
  calc wsWords (wsTrimRight (wsTrimLeft u))
      = wsWords (wsTrimRight (wsTrimLeft u) ++ t) :=
        (wsWords_append_ws t hws _).symm
    _ = wsWords (wsTrimLeft u) := by rw [← hdecomp]
    _ = wsWords u := wsWords_wsTrimLeft u

/-- A string headed by a non-whitespace character has at least one word. -/
theorem wsWords_ne_nil (c : Nat) (hc : isWsChar c = false) :
    ∀ cs, wsWords (c :: cs) ≠ []
  | [] => by simp [wsWords, hc]
  | d :: cs => by
      by_cases hd : isWsChar d = true
      · simp [wsWords, hc, hd]
      · simp only [wsWords, hc, hd]
        cases hW : wsWords (d :: cs)
        · simp [hW]
        · simp [hW]

/-- If some element fails the predicate, `dropWhile` keeps a non-empty
tail. -/
theorem dropWhile_ne_nil_of_exists (p : Nat → Bool) :
    ∀ (l : List Nat), (∃ x ∈ l, p x = false) → l.dropWhile p ≠ []
  | [], h => by simp at h
  | c :: cs, h => by
      by_cases hc : p c = true
      · rw [List.dropWhile_cons_of_pos hc]
        apply dropWhile_ne_nil_of_exists p cs
        obtain ⟨x, hx, hpx⟩ := h
        rcases List.mem_cons.mp hx with rfl | hx'
        · rw [hc] at hpx; cases hpx
        · exact ⟨x, hx', hpx⟩
      · rw [List.dropWhile_cons_of_neg (by simp [hc])]
        simp

/-- The embedded `unwords` distributes a leading character over the first word. -/
theorem unwords_cons_head (c : Nat) (w : List Nat) (ws : List (List Nat)) :
    unwords ((c :: w) :: ws) = c :: unwords (w :: ws) := by
  cases ws <;> simp [unwords]

/-- The embedded `unwords` of a multi-word list inserts a single space. -/
theorem unwords_cons_of_ne_nil (w : List Nat) (ws : List (List Nat))
    (h : ws ≠ []) : unwords (w :: ws) = w ++ 32 :: unwords ws := by
  cases ws with
  | nil => cases h rfl
  | cons w' ws' => rfl

/-- The embedded `replace(/\s+/g, ' ')` turns a leading whitespace run into one
space. -/
theorem collapseWs_cons_ws (d : Nat) (hd : isWsChar d = true) :
    ∀ cs, collapseWs (d :: cs) = 32 :: collapseWs (cs.dropWhile isWsChar)
  | [] => by simp [collapseWs, hd, List.dropWhile]
  | e :: es => by
      by_cases he : isWsChar e = true
      · rw [List.dropWhile_cons_of_pos he]
        simp only [collapseWs, hd, he, and_self, if_true]
        exact collapseWs_cons_ws e he es
      · rw [List.dropWhile_cons_of_neg (by simp [he])]
        simp [collapseWs, hd, he]

/-- The embedded `dropWhile` never lengthens a list. -/
theorem dropWhile_length_le (p : Nat → Bool) :
    ∀ l : List Nat, (l.dropWhile p).length ≤ l.length
  | [] => Nat.le_refl 0
  | c :: cs => by
      by_cases hc : p c = true
      · rw [List.dropWhile_cons_of_pos hc]
        exact Nat.le_trans (dropWhile_length_le p cs) (Nat.le_succ _)
      · rw [List.dropWhile_cons_of_neg (by simp [hc])]

/-- The core characterization: on a string with no leading and no
trailing whitespace, collapsing whitespace runs yields the words joined
by single spaces. -/
theorem collapse_eq_unwords :
    ∀ (v : List Nat),
      (∀ h, v.head? = some h → isWsChar h = false) →
      (∀ h, v.getLast? = some h → isWsChar h = false) →
      collapseWs v = unwords (wsWords v)
  | [], _, _ => rfl
  | [c], hh, _ => by
      have hc : isWsChar c = false := hh c rfl
      simp [collapseWs, wsWords, hc, unwords]
  | c :: d :: cs, hh, hl => by
      have hc : isWsChar c = false := hh c rfl
      by_cases hd : isWsChar d = true
      · have hcs : cs ≠ [] := by
          intro hnil
          subst hnil
          have hld : isWsChar d = false := by
            apply hl
            rw [List.getLast?_cons_cons]
            rfl
          rw [hld] at hd
          cases hd
        have hlast_rest : ∀ h, cs.getLast? = some h → isWsChar h = false := by
          intro h hres
          apply hl
          rw [List.getLast?_cons_cons,
            show d :: cs = [d] ++ cs from rfl,
            List.getLast?_append_of_ne_nil _ hcs]
          exact hres
        have hex : ∃ x ∈ cs, isWsChar x = false :=
          ⟨cs.getLast hcs, List.getLast_mem _,
            hlast_rest _ (List.getLast?_eq_getLast_of_ne_nil hcs)⟩
        have hv' : cs.dropWhile isWsChar ≠ [] :=
          dropWhile_ne_nil_of_exists _ _ hex
        have hhv' : ∀ h, (cs.dropWhile isWsChar).head? = some h →
            isWsChar h = false :=
          fun h hh' => head_dropWhile_not _ _ h hh'
        have hlv' : ∀ h, (cs.dropWhile isWsChar).getLast? = some h →
            isWsChar h = false := by
          intro h hres
          apply hlast_rest
          have heq : cs.getLast? = (cs.dropWhile isWsChar).getLast? := by
            conv_lhs => rw [← List.takeWhile_append_dropWhile
              (p := isWsChar) (l := cs)]
            exact List.getLast?_append_of_ne_nil _ hv'
          rw [heq]
          exact hres
        have IH := collapse_eq_unwords (cs.dropWhile isWsChar) hhv' hlv'
        have hcol : collapseWs (c :: d :: cs) =
            c :: 32 :: collapseWs (cs.dropWhile isWsChar) := by
          have h1 : collapseWs (c :: d :: cs) =
              c :: collapseWs (d :: cs) := by
            simp [collapseWs, hc, hd]
          rw [h1, collapseWs_cons_ws d hd cs]
        have hw : wsWords (c :: d :: cs) =
            [c] :: wsWords (cs.dropWhile isWsChar) := by
          have h1 : wsWords (c :: d :: cs) =
              [c] :: wsWords (d :: cs) := by
            simp [wsWords, hc, hd]
          rw [h1, wsWords_cons_ws d hd cs]
          have := wsWords_wsTrimLeft cs
          unfold wsTrimLeft at this
          rw [this]
        have hwne : wsWords (cs.dropWhile isWsChar) ≠ [] := by
          cases hv : cs.dropWhile isWsChar with
          | nil => exact absurd hv hv'
          | cons a as =>
              have ha : isWsChar a = false := by
                apply hhv'
                rw [hv]
                rfl
              exact wsWords_ne_nil a ha as
        rw [hcol, hw, unwords_cons_of_ne_nil [c] _ hwne, IH]
        rfl
      · have hd' : isWsChar d = false := by simpa using hd
        have hh' : ∀ h, (d :: cs).head? = some h → isWsChar h = false := by
          intro h hres
          rw [List.head?_cons, Option.some.injEq] at hres
          rw [← hres]
          exact hd'
        have hl' : ∀ h, (d :: cs).getLast? = some h → isWsChar h = false := by
          intro h hres
          apply hl
          rw [List.getLast?_cons_cons]
          exact hres
        have IH := collapse_eq_unwords (d :: cs) hh' hl'
        have hcol : collapseWs (c :: d :: cs) = c :: collapseWs (d :: cs) := by
          simp [collapseWs, hc, hd']
        obtain ⟨w, ws, hW⟩ : ∃ w ws, wsWords (d :: cs) = w :: ws := by
          cases hW0 : wsWords (d :: cs) with
          | nil => exact absurd hW0 (wsWords_ne_nil d hd' cs)
          | cons w ws => exact ⟨w, ws, rfl⟩
        have hwords : wsWords (c :: d :: cs) = (c :: w) :: ws := by
          simp only [wsWords, hc, hd', Bool.false_eq_true, if_false, hW]
        rw [hcol, hwords, unwords_cons_head, ← hW, IH]
  termination_by v _ _ => v.length
  decreasing_by
    · simp only [List.length_cons]
      have := dropWhile_length_le isWsChar cs
      omega
    · simp only [List.length_cons]
      omega

/-- A trimmed string does not end in whitespace. -/
theorem wsTrimRight_last_not_ws (l : List Nat) :
    ∀ h, (wsTrimRight l).getLast? = some h → isWsChar h = false := by
  intro h hres
  unfold wsTrimRight at hres
  rw [List.getLast?_reverse] at hres
  exact head_dropWhile_not _ _ h hres

/-- A trimmed string does not start with whitespace. -/
theorem wsTrim_head_not_ws (u : List Nat) :
    ∀ h, (wsTrim u).head? = some h → isWsChar h = false := by
  intro h hres
  obtain ⟨t, hdecomp, _⟩ := wsTrimRight_decomp (wsTrimLeft u)
  have hhead : (wsTrimLeft u).head? = some h := by
    rw [hdecomp]
    unfold wsTrim at hres
    cases hv : wsTrimRight (wsTrimLeft u) with
    | nil => rw [hv] at hres; cases hres
    | cons a as =>
        rw [hv] at hres
        rw [List.head?_cons, Option.some.injEq] at hres
        subst hres
        rfl
  exact head_dropWhile_not _ u h hhead

/-- A trimmed string does not end in whitespace. -/
theorem wsTrim_last_not_ws (u : List Nat) :
    ∀ h, (wsTrim u).getLast? = some h → isWsChar h = false :=
  wsTrimRight_last_not_ws (wsTrimLeft u)

/-- The canonical form of a field is its uppercased words joined by
single spaces. -/
theorem canonField_eq_unwords (s : List Nat) :
    canonField s = unwords (wsWords (listUpper s)) := by
  unfold canonField
  rw [← wsTrim_listUpper,
    collapse_eq_unwords (wsTrim (listUpper s))
      (wsTrim_head_not_ws (listUpper s)) (wsTrim_last_not_ws (listUpper s)),
    wsWords_wsTrim]

/-- Case/whitespace-insensitive equivalence of one optional field: both
absent, or both present with the same uppercased word sequence. -/
def optFieldEquiv : Option (List Nat) → Option (List Nat) → Bool
  | some a, some b => decide (wsWords (listUpper a) = wsWords (listUpper b))
  | none, none => true
  | _, _ => false

/-- C8: two `ValidationInput`s that differ only in letter case or in
leading/trailing/internal whitespace runs of the street line, secondary
line or city (and only in case for the state code) produce identical
cache keys under `canonicalizeAddress`. -/
theorem canonicalizeAddress_case_ws_insensitive
    (i₁ i₂ : AddressValidationInput)
    (hstreet : wsWords (listUpper i₁.streetAddress) =
      wsWords (listUpper i₂.streetAddress))
    (hsec : optFieldEquiv i₁.secondaryAddress i₂.secondaryAddress = true)
    (hcity : optFieldEquiv i₁.city i₂.city = true)
    (hstate : listUpper i₁.state = listUpper i₂.state)
    (hzip : i₁.ZIPCode = i₂.ZIPCode) :
    canonicalizeAddress i₁ = canonicalizeAddress i₂ := by
  have h1 : canonField i₁.streetAddress = canonField i₂.streetAddress := by
    rw [canonField_eq_unwords, canonField_eq_unwords, hstreet]
  have h2 : i₁.secondaryAddress.map canonField =
      i₂.secondaryAddress.map canonField := by
    cases ha : i₁.secondaryAddress with
    | none =>
        cases hb : i₂.secondaryAddress with
        | none => rfl
        | some b => rw [ha, hb] at hsec; cases hsec
    | some a =>
        cases hb : i₂.secondaryAddress with
        | none => rw [ha, hb] at hsec; cases hsec
        | some b =>
            rw [ha, hb] at hsec
            simp only [optFieldEquiv, decide_eq_true_eq] at hsec
            simp only [Option.map_some']
            rw [canonField_eq_unwords, canonField_eq_unwords, hsec]
  have h3 : i₁.city.map canonField = i₂.city.map canonField := by
    cases ha : i₁.city with
    | none =>
        cases hb : i₂.city with
        | none => rfl
        | some b => rw [ha, hb] at hcity; cases hcity
    | some a =>
        cases hb : i₂.city with
        | none => rw [ha, hb] at hcity; cases hcity
        | some b =>
            rw [ha, hb] at hcity
            simp only [optFieldEquiv, decide_eq_true_eq] at hcity
            simp only [Option.map_some']
            rw [canonField_eq_unwords, canonField_eq_unwords, hcity]
  have h4 : listUpper (wsTrim i₁.state) = listUpper (wsTrim i₂.state) := by
    rw [← wsTrim_listUpper, hstate, wsTrim_listUpper]
  have h5 : i₁.ZIPCode.map canonZip = i₂.ZIPCode.map canonZip := by
    rw [hzip]
  simp only [canonicalizeAddress]
  rw [h1, h2, h3, h4, h5]

/-- Witness for C8: `"123 Main St"` vs `"123   main st"` with a
re-spaced city and lower-cased state canonicalize to the same key. -/
theorem canonicalizeAddress_case_ws_insensitive_witness :
    canonicalizeAddress
      { streetAddress := strCodes "123 Main St"
        city := some (strCodes "Springfield")
        state := strCodes "il"
        ZIPCode := some (strCodes "62704")
        secondaryAddress := none } =
    canonicalizeAddress
      { streetAddress := strCodes "123   main st"
        city := some (strCodes " SPRINGFIELD ")
        state := strCodes "IL"
        ZIPCode := some (strCodes "62704")
        secondaryAddress := none } :=
  canonicalizeAddress_case_ws_insensitive _ _
    (by decide) (by decide) (by decide) (by decide) (by decide)

end AddressValidation
